import Mathlib

/-
Shallow embedding of the remu RV64GC user-mode emulator.

Sources embedded here:
  - src/src/instruction.rs      (Inst, Inst::decode / decode_normal / decode_compressed)
  - src/remu/src/memory.rs      (Memory and its operations)
  - src/remu/src/cache.rs       (Cache)
  - src/remu/src/profiler.rs    (Profiler)
  - src/src/syscalls.rs         (Syscall numbers)
  - src/remu/src/emulator.rs    (Emulator, syscall, execute, fetch_and_execute)
  - src/remu/src/system/mod.rs  (fetch_and_execute early return; identical shape)

Modelling conventions:
  - Machine integers are Nat in two's-complement bit-pattern form; signed views
    are Int.  Wrapping arithmetic applies an explicit `% 2 ^ w`.
  - Rust panics and divergence are modelled as `none`; `Result::Err(e)` is
    `some (Except.error e)`; `Result::Ok(v)` is `some (Except.ok v)`.
  - Register files are total functions `Nat → Nat`; the Rust arrays have 32
    entries and every decoded instruction indexes within bounds.
  - Release-profile semantics is used where debug and release differ (unsigned
    `+`/`-` wrap, shift amounts are masked); integer division by zero and
    division overflow panic in both profiles and are modelled as `none`.
-/

namespace Remu

/-- two's-complement signed view of the low 64 bits of a natural number -/
def toI64 (n : Nat) : Int :=
  if n % 2 ^ 64 < 2 ^ 63 then ((n % 2 ^ 64 : Nat) : Int) else ((n % 2 ^ 64 : Nat) : Int) - 2 ^ 64

/-- two's-complement signed view of the low 32 bits -/
def toI32 (n : Nat) : Int :=
  if n % 2 ^ 32 < 2 ^ 31 then ((n % 2 ^ 32 : Nat) : Int) else ((n % 2 ^ 32 : Nat) : Int) - 2 ^ 32

/-- two's-complement signed view of the low 16 bits -/
def toI16 (n : Nat) : Int :=
  if n % 2 ^ 16 < 2 ^ 15 then ((n % 2 ^ 16 : Nat) : Int) else ((n % 2 ^ 16 : Nat) : Int) - 2 ^ 16

/-- two's-complement signed view of the low 8 bits -/
def toI8 (n : Nat) : Int :=
  if n % 2 ^ 8 < 2 ^ 7 then ((n % 2 ^ 8 : Nat) : Int) else ((n % 2 ^ 8 : Nat) : Int) - 2 ^ 8

/-- 64-bit two's-complement bit pattern of an integer (Rust cast to u64) -/
def ofI64 (i : Int) : Nat := (i % (2 ^ 64 : Int)).toNat

/-- 32-bit two's-complement bit pattern of an integer (Rust cast to u32) -/
def ofI32 (i : Int) : Nat := (i % (2 ^ 32 : Int)).toNat

/-- arithmetic shift right of a signed value (floor division by a power of two) -/
def ashr (i : Int) (k : Nat) : Int := Int.fdiv i ((2 : Int) ^ k)

/-- wrap an integer into the signed 32-bit range (Rust i32 wrapping result) -/
def wrapI32 (i : Int) : Int := toI32 (ofI32 i)

/-- u64 wrapping addition -/
def wadd64 (a b : Nat) : Nat := (a + b) % 2 ^ 64

/-- u64 wrapping subtraction -/
def wsub64 (a b : Nat) : Nat := (a + (2 ^ 64 - b % 2 ^ 64)) % 2 ^ 64

/-- u16 shift left (result truncated to 16 bits, as Rust u16 shl) -/
def shl16 (x k : Nat) : Nat := (x <<< k) % 2 ^ 16

/-- 16-bit two's-complement bit pattern of an integer (Rust cast to u16) -/
def ofI16 (i : Int) : Nat := (i % (2 ^ 16 : Int)).toNat

/--
Instruction record from src/src/instruction.rs.  Register fields are the raw
indices Rust stores in `Reg`/`FReg`; immediate fields keep the Rust field type
(i32 becomes Int, u32 becomes Nat).
-/
inductive Inst where
  | Fence
  | Ecall
  | Ebreak
  | Error (raw : Nat)
  | Lui (rd : Nat) (imm : Int)
  | Ld (rd rs1 : Nat) (offset : Int)
  | Lw (rd rs1 : Nat) (offset : Int)
  | Lwu (rd rs1 : Nat) (offset : Int)
  | Lhu (rd rs1 : Nat) (offset : Int)
  | Lb (rd rs1 : Nat) (offset : Int)
  | Lbu (rd rs1 : Nat) (offset : Int)
  | Sd (rs1 rs2 : Nat) (offset : Int)
  | Sw (rs1 rs2 : Nat) (offset : Int)
  | Sh (rs1 rs2 : Nat) (offset : Int)
  | Sb (rs1 rs2 : Nat) (offset : Int)
  | Add (rd rs1 rs2 : Nat)
  | Addw (rd rs1 rs2 : Nat)
  | Addi (rd rs1 : Nat) (imm : Int)
  | Addiw (rd rs1 : Nat) (imm : Nat)
  | Div (rd rs1 rs2 : Nat)
  | Divw (rd rs1 rs2 : Nat)
  | Divu (rd rs1 rs2 : Nat)
  | Divuw (rd rs1 rs2 : Nat)
  | And (rd rs1 rs2 : Nat)
  | Andi (rd rs1 : Nat) (imm : Int)
  | Sub (rd rs1 rs2 : Nat)
  | Subw (rd rs1 rs2 : Nat)
  | Sll (rd rs1 rs2 : Nat)
  | Sllw (rd rs1 rs2 : Nat)
  | Slli (rd rs1 : Nat) (shamt : Nat)
  | Slliw (rd rs1 : Nat) (shamt : Nat)
  | Srl (rd rs1 rs2 : Nat)
  | Srlw (rd rs1 rs2 : Nat)
  | Srli (rd rs1 : Nat) (shamt : Nat)
  | Srliw (rd rs1 : Nat) (shamt : Nat)
  | Sra (rd rs1 rs2 : Nat)
  | Sraw (rd rs1 rs2 : Nat)
  | Srai (rd rs1 : Nat) (shamt : Nat)
  | Sraiw (rd rs1 : Nat) (shamt : Nat)
  | Or (rd rs1 rs2 : Nat)
  | Ori (rd rs1 : Nat) (imm : Int)
  | Xor (rd rs1 rs2 : Nat)
  | Xori (rd rs1 : Nat) (imm : Int)
  | Auipc (rd : Nat) (imm : Int)
  | Jal (rd : Nat) (offset : Int)
  | Jalr (rd rs1 : Nat) (offset : Int)
  | Beq (rs1 rs2 : Nat) (offset : Int)
  | Bne (rs1 rs2 : Nat) (offset : Int)
  | Blt (rs1 rs2 : Nat) (offset : Int)
  | Bltu (rs1 rs2 : Nat) (offset : Int)
  | Bge (rs1 rs2 : Nat) (offset : Int)
  | Bgeu (rs1 rs2 : Nat) (offset : Int)
  | Mul (rd rs1 rs2 : Nat)
  | Mulhu (rd rs1 rs2 : Nat)
  | Remw (rd rs1 rs2 : Nat)
  | Remu (rd rs1 rs2 : Nat)
  | Remuw (rd rs1 rs2 : Nat)
  | Slt (rd rs1 rs2 : Nat)
  | Sltu (rd rs1 rs2 : Nat)
  | Slti (rd rs1 : Nat) (imm : Int)
  | Sltiu (rd rs1 : Nat) (imm : Nat)
  | Amoswapw (rd rs1 rs2 : Nat)
  | Amoswapd (rd rs1 rs2 : Nat)
  | Amoaddw (rd rs1 rs2 : Nat)
  | Amoaddd (rd rs1 rs2 : Nat)
  | Amoorw (rd rs1 rs2 : Nat)
  | Amomaxuw (rd rs1 rs2 : Nat)
  | Amomaxud (rd rs1 rs2 : Nat)
  | Lrw (rd rs1 : Nat)
  | Lrd (rd rs1 : Nat)
  | Scw (rd rs1 rs2 : Nat)
  | Scd (rd rs1 rs2 : Nat)
  | Fsd (rs1 rs2 : Nat) (offset : Int)
  | Fsw (rs1 rs2 : Nat) (offset : Int)
  | Fld (rd rs1 : Nat) (offset : Int)
  | Flw (rd rs1 : Nat) (offset : Int)
  | Fcvtdlu (rd rs1 : Nat) (rm : Nat)
  | Fcvtds (rd rs1 : Nat) (rm : Nat)
  | Fled (rd rs1 rs2 : Nat)
  | Fdivd (rd rs1 rs2 : Nat)

/-- decode_normal from src/src/instruction.rs (32-bit encodings); total -/
def Inst.decodeNormal (inst : Nat) : Inst :=
  let opcode := inst &&& 0b1111111
  let rd := (inst >>> 7) &&& 0b11111
  let rs1 := (inst >>> 15) &&& 0b11111
  let rs2 := (inst >>> 20) &&& 0b11111
  let funct3 := (inst >>> 12) &&& 0b111
  let funct5 := (inst >>> 27) &&& 0b11111
  let funct6 := (inst >>> 26) &&& 0b111111
  let funct7 := (inst >>> 25) &&& 0b1111111
  match opcode with
  | 0b0000011 =>
    let offset := ashr (toI32 (inst &&& 0xFFF00000)) 20
    match funct3 with
    | 0b000 => Inst.Lb rd rs1 offset
    | 0b010 => Inst.Lw rd rs1 offset
    | 0b011 => Inst.Ld rd rs1 offset
    | 0b100 => Inst.Lbu rd rs1 offset
    | 0b101 => Inst.Lhu rd rs1 offset
    | 0b110 => Inst.Lwu rd rs1 offset
    | _ => Inst.Error inst
  | 0b0000111 =>
    let offset := ashr (toI32 (inst &&& 0xFFF00000)) 20
    match funct3 with
    | 0b010 => Inst.Flw rd rs1 offset
    | 0b011 => Inst.Fld rd rs1 offset
    | _ => Inst.Error inst
  | 0b0001111 => Inst.Fence
  | 0b0010011 =>
    let imm := ashr (toI32 (inst &&& 0xFFF00000)) 20
    match funct3 with
    | 0b000 => Inst.Addi rd rs1 imm
    | 0b001 =>
      let shamt := (inst >>> 20) &&& 0b111111
      Inst.Slli rd rs1 shamt
    | 0b010 => Inst.Slti rd rs1 imm
    | 0b011 => Inst.Sltiu rd rs1 (ofI32 imm)
    | 0b100 => Inst.Xori rd rs1 imm
    | 0b101 =>
      match funct6 with
      | 0b000000 => Inst.Srli rd rs1 ((inst >>> 20) &&& 0b111111)
      | 0b010000 => Inst.Srai rd rs1 ((inst >>> 20) &&& 0b111111)
      | _ => Inst.Error inst
    | 0b110 => Inst.Ori rd rs1 imm
    | 0b111 => Inst.Andi rd rs1 imm
    | _ => Inst.Error inst
  | 0b0010111 => Inst.Auipc rd (toI32 (inst &&& 0xFFFFF000))
  | 0b0011011 =>
    match funct3 with
    | 0b000 =>
      let imm := ofI32 (ashr (toI32 (inst &&& 0b11111111111100000000000000000000)) 20)
      Inst.Addiw rd rs1 imm
    | 0b001 =>
      match funct7 with
      | 0b0000000 => Inst.Slliw rd rs1 ((inst >>> 20) &&& 0b11111)
      | _ => Inst.Error inst
    | 0b101 =>
      let shamt := (inst >>> 20) &&& 0b11111
      match funct7 with
      | 0b0000000 => Inst.Srliw rd rs1 shamt
      | 0b0100000 => Inst.Sraiw rd rs1 shamt
      | _ => Inst.Error inst
    | _ => Inst.Error inst
  | 0b0100011 =>
    let offset := ashr (toI32 (inst &&& 0b11111110000000000000000000000000)) 20 +
      ashr (toI32 (inst &&& 0b111110000000)) 7
    match funct3 with
    | 0b011 => Inst.Sd rs1 rs2 offset
    | 0b010 => Inst.Sw rs1 rs2 offset
    | 0b001 => Inst.Sh rs1 rs2 offset
    | 0b000 => Inst.Sb rs1 rs2 offset
    | _ => Inst.Error inst
  | 0b0100111 =>
    let offset := ashr (toI32 (inst &&& 0b11111110000000000000000000000000)) 20 +
      ashr (toI32 (inst &&& 0b111110000000)) 7
    match funct3 with
    | 0b010 => Inst.Fsw rs1 rs2 offset
    | 0b011 => Inst.Fsd rs1 rs2 offset
    | _ => Inst.Error inst
  | 0b0110011 =>
    match funct3 with
    | 0b000 =>
      match funct7 with
      | 0b0000000 => Inst.Add rd rs1 rs2
      | 0b0100000 => Inst.Sub rd rs1 rs2
      | 0b0000001 => Inst.Mul rd rs1 rs2
      | _ => Inst.Error inst
    | 0b001 =>
      match funct7 with
      | 0b0000000 => Inst.Sll rd rs1 rs2
      | _ => Inst.Error inst
    | 0b010 =>
      match funct7 with
      | 0b0000000 => Inst.Slt rd rs1 rs2
      | _ => Inst.Error inst
    | 0b011 =>
      match funct7 with
      | 0b0000000 => Inst.Sltu rd rs1 rs2
      | 0b0000001 => Inst.Mulhu rd rs1 rs2
      | _ => Inst.Error inst
    | 0b100 =>
      match funct7 with
      | 0b0000000 => Inst.Xor rd rs1 rs2
      | 0b0000001 => Inst.Div rd rs1 rs2
      | _ => Inst.Error inst
    | 0b101 =>
      match funct7 with
      | 0b0000000 => Inst.Srl rd rs1 rs2
      | 0b0000001 => Inst.Divu rd rs1 rs2
      | 0b0100000 => Inst.Sra rd rs1 rs2
      | _ => Inst.Error inst
    | 0b111 =>
      match funct7 with
      | 0b0000000 => Inst.And rd rs1 rs2
      | 0b0000001 => Inst.Remu rd rs1 rs2
      | _ => Inst.Error inst
    | 0b110 =>
      match funct7 with
      | 0b0000000 => Inst.Or rd rs1 rs2
      | _ => Inst.Error inst
    | _ => Inst.Error inst
  | 0b0110111 => Inst.Lui rd (toI32 (inst &&& 0xFFFFF000))
  | 0b0111011 =>
    match funct3 with
    | 0b000 =>
      match funct7 with
      | 0b0000000 => Inst.Addw rd rs1 rs2
      | 0b0100000 => Inst.Subw rd rs1 rs2
      | _ => Inst.Error inst
    | 0b001 =>
      match funct7 with
      | 0b0000000 => Inst.Sllw rd rs1 rs2
      | _ => Inst.Error inst
    | 0b100 =>
      match funct7 with
      | 0b0000001 => Inst.Divw rd rs1 rs2
      | _ => Inst.Error inst
    | 0b101 =>
      match funct7 with
      | 0b0000000 => Inst.Srlw rd rs1 rs2
      | 0b0000001 => Inst.Divuw rd rs1 rs2
      | 0b0100000 => Inst.Sraw rd rs1 rs2
      | _ => Inst.Error inst
    | 0b110 =>
      match funct7 with
      | 0b0000001 => Inst.Remw rd rs1 rs2
      | _ => Inst.Error inst
    | 0b111 =>
      match funct7 with
      | 0b0000001 => Inst.Remuw rd rs1 rs2
      | _ => Inst.Error inst
    | _ => Inst.Error inst
  | 0b0101111 =>
    match funct3 with
    | 0b010 =>
      match funct5 with
      | 0b00000 => Inst.Amoaddw rd rs1 rs2
      | 0b00001 => Inst.Amoswapw rd rs1 rs2
      | 0b00010 => Inst.Lrw rd rs1
      | 0b00011 => Inst.Scw rs2 rs1 rd
      | 0b01000 => Inst.Amoorw rs2 rs1 rd
      | 0b11100 => Inst.Amomaxuw rs2 rs1 rd
      | _ => Inst.Error inst
    | 0b011 =>
      match funct5 with
      | 0b00000 => Inst.Amoaddd rd rs1 rs2
      | 0b00001 => Inst.Amoswapd rd rs1 rs2
      | 0b00010 => Inst.Lrd rd rs1
      | 0b00011 => Inst.Scd rs2 rs1 rd
      | 0b11100 => Inst.Amomaxud rs2 rs1 rd
      | _ => Inst.Error inst
    | _ => Inst.Error inst
  | 0b1010011 =>
    let rm := (inst >>> 12) &&& 0b11
    if funct7 = 0b001101 then Inst.Fdivd rd rs1 rs2
    else if funct7 = 0b1010001 ∧ rm = 0b000 then Inst.Fled rd rs1 rs2
    else if funct7 = 0b1101001 ∧ rs2 = 0b00011 then Inst.Fcvtdlu rd rs1 rm
    else Inst.Error inst
  | 0b1100011 =>
    let offset := ((inst &&& 0b1111110000000000000000000000000) >>> 20 : Int) +
      ashr (toI32 (inst &&& 0b10000000000000000000000000000000)) 19 +
      (((inst &&& 0b10000000) <<< 4 : Nat) : Int) +
      (((inst &&& 0b111100000000) >>> 7 : Nat) : Int)
    match funct3 with
    | 0b000 => Inst.Beq rs1 rs2 offset
    | 0b001 => Inst.Bne rs1 rs2 offset
    | 0b100 => Inst.Blt rs1 rs2 offset
    | 0b101 => Inst.Bge rs1 rs2 offset
    | 0b110 => Inst.Bltu rs1 rs2 offset
    | 0b111 => Inst.Bgeu rs1 rs2 offset
    | _ => Inst.Error inst
  | 0b1100111 =>
    let offset := ashr (toI32 (inst &&& 0xFFF00000)) 12
    match funct3 with
    | 0b000 => Inst.Jalr rd rs1 offset
    | _ => Inst.Error inst
  | 0b1101111 =>
    let offset := ((inst &&& 0b11111111000000000000 : Nat) : Int) +
      (((inst &&& 0b100000000000000000000) >>> 9 : Nat) : Int) +
      (((inst &&& 0b1111111111000000000000000000000) >>> 20 : Nat) : Int) +
      ashr (toI32 (inst &&& 0b10000000000000000000000000000000)) 11
    Inst.Jal rd offset
  | 0b1110011 => Inst.Ecall
  | _ => Inst.Error inst

/--
decode_compressed from src/src/instruction.rs (16-bit encodings).  The
C.SRLI and C.SRAI arms execute `assert_ne!(shamt, 0)` before their
`Inst::Error` fallback, so a zero shift amount panics: modelled as `none`.
-/
def Inst.decodeCompressed (inst0 : Nat) : Option Inst :=
  let inst := inst0 % 2 ^ 16
  let quadrant := inst &&& 0b11
  let funct3 := (inst >>> 13) &&& 0b111
  match quadrant with
  | 0b00 =>
    match funct3 with
    | 0b000 =>
      let imm := (inst &&& 0b100000) >>> 2 |||
        (inst &&& 0b1000000) >>> 4 |||
        (inst &&& 0b11110000000) >>> 1 |||
        (inst &&& 0b1100000000000) >>> 7
      let rd := ((inst >>> 2) &&& 0b111) + 8
      some (Inst.Addi rd 2 (imm : Int))
    | 0b001 =>
      let imm := (inst &&& 0b1110000000000) >>> 7 ||| shl16 (inst &&& 0b1100000) 1
      let rd := ((inst >>> 2) &&& 0b111) + 8
      let rs1 := ((inst >>> 7) &&& 0b111) + 8
      some (Inst.Fld rd rs1 (imm : Int))
    | 0b010 =>
      let rd := ((inst >>> 2) &&& 0b111) + 8
      let rs1 := ((inst >>> 7) &&& 0b111) + 8
      let offset := shl16 (inst &&& 0b100000) 1 |||
        (inst &&& 0b1000000) >>> 4 |||
        (inst &&& 0b1110000000000) >>> 7
      some (Inst.Lw rd rs1 (offset : Int))
    | 0b011 =>
      let rd := ((inst >>> 2) &&& 0b111) + 8
      let rs1 := ((inst >>> 7) &&& 0b111) + 8
      let offset := shl16 (inst &&& 0b1100000) 1 ||| (inst &&& 0b1110000000000) >>> 7
      some (Inst.Ld rd rs1 (offset : Int))
    | 0b101 =>
      let rs2 := ((inst >>> 2) &&& 0b111) + 8
      let rs1 := ((inst >>> 7) &&& 0b111) + 8
      let offset := shl16 (inst &&& 0b1100000) 1 ||| (inst &&& 0b1110000000000) >>> 7
      some (Inst.Fsd rs1 rs2 (offset : Int))
    | 0b110 =>
      let rs1 := ((inst >>> 7) &&& 0b111) + 8
      let rs2 := ((inst >>> 2) &&& 0b111) + 8
      let imm := (inst &&& 0b1110000000000) >>> 7 |||
        shl16 (inst &&& 0b100000) 1 |||
        (inst &&& 0b1000000) >>> 4
      some (Inst.Sw rs1 rs2 (imm : Int))
    | 0b111 =>
      let rs1 := ((inst >>> 7) &&& 0b111) + 8
      let rs2 := ((inst >>> 2) &&& 0b111) + 8
      let imm := (inst &&& 0b1110000000000) >>> 7 ||| shl16 (inst &&& 0b1100000) 1
      some (Inst.Sd rs1 rs2 (imm : Int))
    | _ => some (Inst.Error inst)
  | 0b01 =>
    match funct3 with
    | 0b000 =>
      let imm := ashr (toI16 (shl16 (inst &&& 0b1000000000000) 3)) 10 +
        ashr (toI16 (inst &&& 0b1111100)) 2
      let rd := (inst >>> 7) &&& 0b11111
      some (Inst.Addi rd rd imm)
    | 0b001 =>
      let imm := ashr (toI16 (shl16 (inst &&& 0b1000000000000) 3)) 10 +
        ashr (toI16 (inst &&& 0b1111100)) 2
      let rd := (inst >>> 7) &&& 0b11111
      some (Inst.Addiw rd rd (ofI32 imm))
    | 0b010 =>
      let imm := ashr (toI16 (shl16 (inst &&& 0b1000000000000) 3)) 10 +
        ashr (toI16 (inst &&& 0b1111100)) 2
      let rd := (inst >>> 7) &&& 0b11111
      some (Inst.Addi rd 0 imm)
    | 0b011 =>
      let rd := (inst >>> 7) &&& 0b11111
      if rd = 2 then
        let imm := ashr (toI16 (shl16 (inst &&& 0b1000000000000) 3)) 6 +
          ((shl16 (inst &&& 0b100) 3 : Nat) : Int) +
          ((shl16 (inst &&& 0b11000) 4 : Nat) : Int) +
          ((shl16 (inst &&& 0b100000) 1 : Nat) : Int) +
          (((inst &&& 0b1000000) >>> 2 : Nat) : Int)
        some (Inst.Addi 2 2 imm)
      else
        let imm := (toI16 (shl16 (inst &&& 0b1000000000000) 3)) * 4 +
          (((inst &&& 0b1111100) <<< 10 : Nat) : Int)
        some (Inst.Lui rd imm)
    | 0b100 =>
      let funct2 := (inst >>> 10) &&& 0b11
      let rd := ((inst >>> 7) &&& 0b111) + 8
      match funct2 with
      | 0b00 =>
        let shamt := (inst &&& 0b1000000000000) >>> 7 ||| (inst &&& 0b1111100) >>> 2
        if shamt = 0 then none else some (Inst.Srli rd rd shamt)
      | 0b01 =>
        let shamt := (inst &&& 0b1000000000000) >>> 7 ||| (inst &&& 0b1111100) >>> 2
        if shamt = 0 then none else some (Inst.Srai rd rd shamt)
      | 0b10 =>
        let imm := ashr (toI16 (shl16 (inst &&& 0b1000000000000) 3)) 10 +
          ashr (toI16 (inst &&& 0b1111100)) 2
        some (Inst.Andi rd rd imm)
      | 0b11 =>
        let f3 := (((inst >>> 12) &&& 0b1) <<< 2) ||| ((inst >>> 5) &&& 0b11)
        let rs2 := ((inst >>> 2) &&& 0b111) + 8
        match f3 with
        | 0b000 => some (Inst.Sub rd rd rs2)
        | 0b001 => some (Inst.Xor rd rd rs2)
        | 0b010 => some (Inst.Or rd rd rs2)
        | 0b011 => some (Inst.And rd rd rs2)
        | 0b100 => some (Inst.Subw rd rd rs2)
        | 0b101 => some (Inst.Addw rd rd rs2)
        | _ => some (Inst.Error inst)
      | _ => some (Inst.Error inst)
    | 0b101 =>
      let imm := shl16 (inst &&& 0b100) 3 |||
        (inst &&& 0b111000) >>> 2 |||
        shl16 (inst &&& 0b1000000) 1 |||
        (inst &&& 0b10000000) >>> 1 |||
        shl16 (inst &&& 0b100000000) 2 |||
        (inst &&& 0b11000000000) >>> 1 |||
        (inst &&& 0b100000000000) >>> 7 |||
        ofI16 (ashr (toI16 (shl16 (inst &&& 0b1000000000000) 3)) 4)
      some (Inst.Jal 0 (toI16 imm))
    | 0b110 =>
      let offset := (((inst &&& 0b110000000000) >>> 7 : Nat) : Int) +
        (toI8 ((inst &&& 0b1000000000000) >>> 5)) * 2 +
        ((shl16 (inst &&& 0b100) 3 : Nat) : Int) +
        (((inst &&& 0b11000) >>> 2 : Nat) : Int) +
        ((shl16 (inst &&& 0b1100000) 1 : Nat) : Int)
      let rs1 := ((inst >>> 7) &&& 0b111) + 8
      some (Inst.Beq rs1 0 offset)
    | 0b111 =>
      let offset := (((inst &&& 0b110000000000) >>> 7 : Nat) : Int) +
        (toI8 ((inst &&& 0b1000000000000) >>> 5)) * 2 +
        ((shl16 (inst &&& 0b100) 3 : Nat) : Int) +
        (((inst &&& 0b11000) >>> 2 : Nat) : Int) +
        ((shl16 (inst &&& 0b1100000) 1 : Nat) : Int)
      let rs1 := ((inst >>> 7) &&& 0b111) + 8
      some (Inst.Bne rs1 0 offset)
    | _ => some (Inst.Error inst)
  | 0b10 =>
    match funct3 with
    | 0b000 =>
      let rd := (inst >>> 7) &&& 0b11111
      let shamt := (inst &&& 0b1000000000000) >>> 7 ||| (inst &&& 0b1111100) >>> 2
      if shamt ≠ 0 then some (Inst.Slli rd rd shamt) else some (Inst.Error inst)
    | 0b001 =>
      let rd := (inst >>> 7) &&& 0b11111
      let offset := (inst &&& 0b1000000000000) >>> 7 |||
        shl16 (inst &&& 0b11100) 4 |||
        (inst &&& 0b1100000) >>> 2
      some (Inst.Fld rd 2 (offset : Int))
    | 0b010 =>
      let rd := (inst >>> 7) &&& 0b11111
      let imm := shl16 (inst &&& 0b1100) 4 |||
        (inst &&& 0b1110000) >>> 2 |||
        (inst &&& 0b1000000000000) >>> 7
      if rd ≠ 0 then some (Inst.Lw rd 2 (imm : Int)) else some (Inst.Error inst)
    | 0b011 =>
      let rd := (inst >>> 7) &&& 0b11111
      let imm := (inst &&& 0b1000000000000) >>> 7 |||
        shl16 (inst &&& 0b11100) 4 |||
        (inst &&& 0b1100000) >>> 2
      if rd ≠ 0 then some (Inst.Ld rd 2 (imm : Int)) else some (Inst.Error inst)
    | 0b100 =>
      let imm := (inst >>> 12) &&& 0b1
      let rs1 := (inst >>> 7) &&& 0b11111
      let rs2 := (inst >>> 2) &&& 0b11111
      if imm = 0 ∧ rs1 ≠ 0 ∧ rs2 = 0 then some (Inst.Jalr 0 rs1 0)
      else if imm = 0 ∧ rs1 ≠ 0 ∧ rs2 ≠ 0 then some (Inst.Add rs1 0 rs2)
      else if imm = 1 ∧ rs1 ≠ 0 ∧ rs2 ≠ 0 then some (Inst.Add rs1 rs1 rs2)
      else if imm = 1 ∧ rs1 ≠ 0 ∧ rs2 = 0 then some (Inst.Jalr 1 rs1 0)
      else some Inst.Ebreak
    | 0b101 =>
      let rs2 := (inst >>> 2) &&& 0b11111
      let imm := (inst &&& 0b1110000000) >>> 1 ||| (inst &&& 0b1110000000000) >>> 7
      some (Inst.Fsd 2 rs2 (imm : Int))
    | 0b110 =>
      let imm := (inst &&& 0b110000000) >>> 1 ||| (inst &&& 0b1111000000000) >>> 7
      let rs2 := (inst >>> 2) &&& 0b11111
      some (Inst.Sw 2 rs2 (imm : Int))
    | 0b111 =>
      let offset := (inst &&& 0b1110000000) >>> 1 ||| (inst &&& 0b1110000000000) >>> 7
      let rs2 := (inst >>> 2) &&& 0b11111
      some (Inst.Sd 2 rs2 (offset : Int))
    | _ => some (Inst.Error inst)
  | _ => some (Inst.Error inst)

/--
Inst::decode from src/src/instruction.rs: low two bits select the 16-bit or
the 32-bit decoder; returns the instruction and its byte length.  `none`
models a panic inside decode_compressed.
-/
def Inst.decode (inst : Nat) : Option (Inst × Nat) :=
  match inst &&& 0b11 with
  | 0b11 => some (Inst.decodeNormal inst, 4)
  | _ => (Inst.decodeCompressed (inst % 2 ^ 16)).map (fun i => (i, 2))

/-- RVError from src/remu/src/error.rs -/
inductive RVError where
  | SegmentationFault
  | InvalidLabel
  | InvalidFileType
deriving DecidableEq, Repr

/--
Computation result of a Rust method: `none` models a panic or divergence,
`some (Except.error e)` models `Err(e)`, `some (Except.ok v)` models `Ok(v)`.
-/
def EmuRes (α : Type) : Type := Option (Except RVError α)

/-- bind for EmuRes: propagate panic and Err, continue on Ok -/
def EmuRes.bind {α β : Type} (r : EmuRes α) (k : α → EmuRes β) : EmuRes β :=
  match r with
  | none => none
  | some (Except.error e) => some (Except.error e)
  | some (Except.ok a) => k a

/-- map for EmuRes -/
def EmuRes.mapOk {α β : Type} (r : EmuRes α) (k : α → β) : EmuRes β :=
  EmuRes.bind r (fun a => some (Except.ok (k a)))

/-- lift a plain Result into EmuRes -/
def EmuRes.ofExcept {α : Type} (r : Except RVError α) : EmuRes α := some r

/--
Cache from src/remu/src/cache.rs, instantiated at K = u64, V = bool,
SIZE = 100 as the profiler uses it.  `Cache::new` zero-initializes the
backing array, so the fresh cache holds one hundred `(0, false)` entries.
-/
structure Cache where
  data : List (Nat × Bool)
  index : Nat

/-- Cache::new -/
def Cache.new : Cache := { data := List.replicate 100 (0, false), index := 0 }

/-- Cache::put -/
def Cache.put (c : Cache) (kv : Nat × Bool) : Cache :=
  { data := c.data.set c.index kv, index := (c.index + 1) % 100 }

/--
Loop body of Cache::update over the backing array.  Returns the rewritten
array and `some r` when the Rust loop returned `r` early, `none` when the key
was not found.  On a mismatch Rust assigns `item.1 = new_value` first and then
returns `Some(item.1.clone())`, that is, the value just stored.
-/
def Cache.updList (key : Nat) (newValue : Bool) :
    List (Nat × Bool) → List (Nat × Bool) × Option (Option Bool)
  | [] => ([], none)
  | (k, v) :: t =>
    if k = key then
      if v ≠ newValue then ((k, newValue) :: t, some (some newValue))
      else ((k, v) :: t, some none)
    else
      let r := Cache.updList key newValue t
      ((k, v) :: r.1, r.2)

/-- Cache::update -/
def Cache.update (c : Cache) (key : Nat) (newValue : Bool) : Cache × Option Bool :=
  match Cache.updList key newValue c.data with
  | (d2, some r) => ({ c with data := d2 }, r)
  | (_, none) => (Cache.put c (key, newValue), none)

/-- Profiler from src/remu/src/profiler.rs; delay arrays are total functions -/
structure Profiler where
  xPipelineDelay : Nat → Nat
  fPipelineDelay : Nat → Nat
  cycleCount : Nat
  cacheHitCount : Nat
  cacheMissCount : Nat
  mispredictedBranchCount : Nat
  predictedBranchCount : Nat
  branchPredictor : Cache
  lastMemAccess : Nat
  running : Bool
  ignoreDynamicLinkerInstructions : Bool

/-- CACHE_SIZE from src/remu/src/profiler.rs -/
def CACHE_SIZE : Nat := 0x500

/-- Profiler::new -/
def Profiler.new : Profiler :=
  { xPipelineDelay := fun _ => 0
    fPipelineDelay := fun _ => 0
    cycleCount := 0
    cacheHitCount := 0
    cacheMissCount := 0
    mispredictedBranchCount := 0
    predictedBranchCount := 0
    branchPredictor := Cache.new
    lastMemAccess := 0
    running := false
    ignoreDynamicLinkerInstructions := true }

/-- Profiler::is_counted -/
def Profiler.isCounted (p : Profiler) (pc : Nat) : Bool :=
  p.running && !(p.ignoreDynamicLinkerInstructions && (pc >>> 56 == 2))

/-- Profiler::tick -/
def Profiler.tick (p : Profiler) (pc : Nat) : Profiler :=
  if p.isCounted pc then { p with cycleCount := p.cycleCount + 1 } else p

/-- Profiler::pipeline_stall_xx -/
def Profiler.pipelineStallXX (p : Profiler) (reg1 reg2 pc : Nat) : Profiler :=
  if p.isCounted pc then
    { p with cycleCount := max (max p.cycleCount (p.xPipelineDelay reg1)) (p.xPipelineDelay reg2) }
  else p

/-- Profiler::pipeline_stall_xf -/
def Profiler.pipelineStallXF (p : Profiler) (reg1 reg2 pc : Nat) : Profiler :=
  if p.isCounted pc then
    { p with cycleCount := max (max p.cycleCount (p.xPipelineDelay reg1)) (p.fPipelineDelay reg2) }
  else p

/-- Profiler::pipeline_stall_x -/
def Profiler.pipelineStallX (p : Profiler) (reg1 pc : Nat) : Profiler :=
  if p.isCounted pc then
    { p with cycleCount := max p.cycleCount (p.xPipelineDelay reg1) }
  else p

/-- Profiler::branch_taken -/
def Profiler.branchTaken (p : Profiler) (pc : Nat) : Profiler :=
  if p.isCounted pc then
    let r := p.branchPredictor.update pc true
    match r.2 with
    | none | some false =>
      { p with branchPredictor := r.1
               mispredictedBranchCount := p.mispredictedBranchCount + 1
               cycleCount := p.cycleCount + 4 }
    | some true =>
      { p with branchPredictor := r.1
               predictedBranchCount := p.predictedBranchCount + 1 }
  else p

/-- Profiler::branch_not_taken -/
def Profiler.branchNotTaken (p : Profiler) (pc : Nat) : Profiler :=
  if p.isCounted pc then
    let r := p.branchPredictor.update pc false
    match r.2 with
    | some true =>
      { p with branchPredictor := r.1
               mispredictedBranchCount := p.mispredictedBranchCount + 1
               cycleCount := p.cycleCount + 4 }
    | none | some false =>
      { p with branchPredictor := r.1
               predictedBranchCount := p.predictedBranchCount + 1 }
  else p

/-- Profiler::add_delay_x; unconditional in the source -/
def Profiler.addDelayX (p : Profiler) (reg amount : Nat) : Profiler :=
  { p with xPipelineDelay :=
      fun i => if i = reg then p.cycleCount + amount else p.xPipelineDelay i }

/-- u64 abs_diff -/
def absDiff (a b : Nat) : Nat := if a ≥ b then a - b else b - a

/-- Profiler::add_load_delay_x -/
def Profiler.addLoadDelayX (p : Profiler) (rd addr pc : Nat) : Profiler :=
  if p.isCounted pc then
    if absDiff p.lastMemAccess addr < CACHE_SIZE then
      { p with cacheHitCount := p.cacheHitCount + 1
               xPipelineDelay :=
                 fun i => if i = rd then p.cycleCount + 3 else p.xPipelineDelay i
               lastMemAccess := addr }
    else
      { p with cacheMissCount := p.cacheMissCount + 1
               xPipelineDelay :=
                 fun i => if i = rd then p.cycleCount + 200 else p.xPipelineDelay i
               lastMemAccess := addr }
  else p

/-- Profiler::add_load_delay_f -/
def Profiler.addLoadDelayF (p : Profiler) (rd addr pc : Nat) : Profiler :=
  if p.isCounted pc then
    if absDiff p.lastMemAccess addr < CACHE_SIZE then
      { p with cacheHitCount := p.cacheHitCount + 1
               fPipelineDelay :=
                 fun i => if i = rd then p.cycleCount + 3 else p.fPipelineDelay i
               lastMemAccess := addr }
    else
      { p with cacheMissCount := p.cacheMissCount + 1
               fPipelineDelay :=
                 fun i => if i = rd then p.cycleCount + 200 else p.fPipelineDelay i
               lastMemAccess := addr }
  else p

/-- Rust i64::abs with release-profile wrapping at the minimal value -/
def rustAbs64 (i : Int) : Int := if i = -(2 ^ 63) then i else |i|

/-- Rust i32::abs with release-profile wrapping at the minimal value -/
def rustAbs32 (i : Int) : Int := if i = -(2 ^ 31) then i else |i|

/--
div_cycle_count macro from src/remu/src/emulator.rs.  Callers pass either
unsigned values or absolute values of signed ones; `.max(1)` makes the
argument positive, `ilog2` is the floor logarithm and `saturating_sub`
is truncated subtraction on Nat.
-/
def divCycleCount (dividend divisor : Int) : Nat :=
  2 + (Nat.log2 (max dividend 1).toNat - Nat.log2 (max divisor 1).toNat)

/-- STACK_START from src/remu/src/emulator.rs: -1i64 as u64 -/
def STACK_START : Nat := 2 ^ 64 - 1

/-- PAGE_SIZE from src/remu/src/memory.rs -/
def PAGE_SIZE : Nat := 4096

/-- PAGE_MASK from src/remu/src/memory.rs -/
def PAGE_MASK : Nat := 4095

/-- FileDescriptor from src/remu/src/emulator.rs: read offset plus backing bytes -/
structure FileDescriptor where
  offset : Nat
  data : List Nat

/--
Modelled from the spec: the synthetic shared-library blobs bundled with the
emulator (res/libc.so.6 and friends) are external resource files whose bytes
are not part of the sources; the spec only says they are opaque byte blobs
served through the file-descriptor table, and no claim depends on their
contents, so they are modelled as unspecified empty byte lists.
-/
def LIBC_DATA : List Nat := []

/-- Modelled from the spec: opaque external blob, see LIBC_DATA. -/
def LIBCPP_DATA : List Nat := []

/-- Modelled from the spec: opaque external blob, see LIBC_DATA. -/
def LIBM_DATA : List Nat := []

/-- Modelled from the spec: opaque external blob, see LIBC_DATA. -/
def LIBGCCS_DATA : List Nat := []

/-- file descriptor number reserved for libc -/
def LIBC_FILE_DESCRIPTOR : Int := 10

/-- file descriptor number reserved for libstdc++ -/
def LIBCPP_FILE_DESCRIPTOR : Int := 11

/-- file descriptor number reserved for libm -/
def LIBM_FILE_DESCRIPTOR : Int := 12

/-- file descriptor number reserved for libgcc_s -/
def LIBGCCS_FILE_DESCRIPTOR : Int := 13

/-- ProgramHeaderInfo from src/remu/src/memory.rs -/
structure ProgramHeaderInfo where
  entry : Nat
  address : Nat
  size : Nat
  number : Nat

/-- Disassembler from src/remu/src/disassembler.rs: sorted symbol list (names as byte lists) -/
structure Disassembler where
  symbols : List (Nat × List Nat)

/--
Memory from src/remu/src/memory.rs.  The 256 buffers (program data, heap,
dynamic linker, mmap regions, stack) are modelled as a total function from
buffer index to its byte list; only indices 0..255 are ever used.
-/
structure Memory where
  buffers : Nat → List Nat
  entry : Nat
  programHeader : ProgramHeaderInfo
  disassembler : Disassembler
  mmapCount : Nat

/-- functional update of one buffer -/
def bufUpdate (f : Nat → List Nat) (i : Nat) (l : List Nat) : Nat → List Nat :=
  fun j => if j = i then l else f j

/-- Memory::heap_index: the top byte of the address -/
def Memory.heapIndex (addr : Nat) : Nat := (addr >>> 56) % 256

/-- Memory::heap_addr: the address with the top byte masked off (and with 0x00FFFFFFFFFFFFFF being 2 ^ 56 - 1 the mask is a mod) -/
def Memory.heapAddr (addr : Nat) : Nat := addr % 2 ^ 56

/-- Memory::heap_end -/
def Memory.heapEnd (m : Memory) (index : Nat) : Nat :=
  0x0100000000000000 * index + (m.buffers index).length

/-- Vec::resize with zero fill: truncates when shrinking, zero-extends when growing -/
def listResize (l : List Nat) (n : Nat) : List Nat :=
  if n ≤ l.length then l.take n else l ++ List.replicate (n - l.length) 0

/--
Memory::grow_heap.  The source resizes the selected buffer for indices
0..=254 and executes `unimplemented!()` (a panic, modelled as none) for
index 255.
-/
def Memory.growHeap (m : Memory) (newAddr : Nat) : Option Memory :=
  let heapIndex := Memory.heapIndex newAddr
  let heapSize := newAddr % 2 ^ 56
  if heapIndex = 255 then none
  else some { m with buffers := bufUpdate m.buffers heapIndex (listResize (m.buffers heapIndex) heapSize) }

/--
Memory::brk.  Grows heap buffer 1 only when the top byte of the request is
exactly 1; always returns 0x0100000000000000 plus the heap length.  The Nat
result is paired with the possibly grown memory.
-/
def Memory.brk (m : Memory) (newEnd : Nat) : Option (Memory × Nat) :=
  let val := newEnd >>> 56
  let m1 := if val = 1 then m.growHeap newEnd else some m
  m1.map (fun m2 => (m2, 0x0100000000000000 + (m2.buffers 1).length))

/-- little-endian byte decomposition of a value into a fixed number of bytes -/
def leBytes : Nat → Nat → List Nat
  | 0, _ => []
  | k + 1, v => v % 256 :: leBytes k (v / 256)

/-- little-endian byte recomposition -/
def leVal : List Nat → Nat
  | [] => 0
  | b :: t => b + 256 * leVal t

/-- write a run of bytes into a buffer starting at an offset (unaligned write) -/
def writeBytesAt (buf : List Nat) (off : Nat) : List Nat → List Nat
  | [] => buf
  | b :: t => writeBytesAt (buf.set off b) (off + 1) t

/--
read a run of bytes from a buffer starting at an offset.  An out-of-bounds
read is undefined behavior in the unsafe Rust source and never happens on the
in-bounds paths the claims exercise; it is modelled as reading zero.
-/
def readBytesAt (buf : List Nat) (off n : Nat) : List Nat :=
  (List.range n).map (fun k => buf.getD (off + k) 0)

/--
Stack growth loop inside Memory::store.  While the store address lies below
the current stack bottom: segfault when it is more than 0x1000 below,
otherwise double the buffer (`extend_from_within(0..len)`) and retry.  The
source loop diverges when the stack buffer is empty; the fuel models that as
`none`, and 128 doublings always suffice for a nonempty buffer.
-/
def growStackLoop : Nat → List Nat → Nat → EmuRes (List Nat)
  | 0, _, _ => none
  | fuel + 1, buf, addr =>
    let stackEnd := STACK_START - buf.length
    if stackEnd > addr then
      if stackEnd - addr > 0x1000 then some (Except.error RVError.SegmentationFault)
      else growStackLoop fuel (buf ++ buf) addr
    else some (Except.ok buf)

/--
Memory::store of a `size`-byte little-endian value.  Buffer 255 is the stack
and grows downward on demand; other buffers require the whole range to be in
bounds.
-/
def Memory.store (m : Memory) (addr size val : Nat) : EmuRes Memory :=
  let heapIndex := Memory.heapIndex addr
  let heapAddr := Memory.heapAddr addr
  let buffer := m.buffers heapIndex
  if heapIndex = 255 then
    EmuRes.bind (growStackLoop 128 buffer addr) (fun buf2 =>
      let stackEnd := STACK_START - buf2.length
      some (Except.ok { m with buffers := bufUpdate m.buffers 255 (writeBytesAt buf2 (addr - stackEnd) (leBytes size val)) }))
  else if heapAddr + size ≤ buffer.length then
    some (Except.ok { m with buffers := bufUpdate m.buffers heapIndex (writeBytesAt buffer heapAddr (leBytes size val)) })
  else some (Except.error RVError.SegmentationFault)

/-- Memory::load of a `size`-byte little-endian value -/
def Memory.load (m : Memory) (addr size : Nat) : Except RVError Nat :=
  let heapIndex := Memory.heapIndex addr
  let heapAddr := Memory.heapAddr addr
  let buffer := m.buffers heapIndex
  if heapIndex = 255 then
    let stackEnd := STACK_START - buffer.length
    if addr > stackEnd then Except.ok (leVal (readBytesAt buffer (addr - stackEnd) size))
    else Except.error RVError.SegmentationFault
  else if heapAddr + size ≤ buffer.length then
    Except.ok (leVal (readBytesAt buffer heapAddr size))
  else Except.error RVError.SegmentationFault

/-- store loop used by write_n and mmap zero fill: one byte after another -/
def Memory.storeSeq (m : Memory) (addr : Nat) : List Nat → EmuRes Memory
  | [] => some (Except.ok m)
  | b :: t => EmuRes.bind (m.store addr 1 b) (fun m2 => Memory.storeSeq m2 (addr + 1) t)

/--
Memory::write_n: store the first `len` bytes of `s`, then zero-fill up to
`len` when `s` is shorter.
-/
def Memory.writeN (m : Memory) (s : List Nat) (addr len : Nat) : EmuRes Memory :=
  EmuRes.bind (m.storeSeq addr (s.take len)) (fun m2 =>
    Memory.storeSeq m2 (addr + s.length) (List.replicate (len - s.length) 0))

/-- zero fill loop of Memory::mmap for the fixed-address branch -/
def Memory.zeroRange (m : Memory) (addr : Nat) : Nat → EmuRes Memory
  | 0 => some (Except.ok m)
  | k + 1 => EmuRes.bind (m.store addr 1 0) (fun m2 => Memory.zeroRange m2 (addr + 1) k)

/--
Memory::mmap.  A zero hint bump-allocates a fresh buffer; a nonzero hint
maps at the requested address, growing the region when needed and zeroing
`size | PAGE_MASK` bytes.  The i64 return is -1 when the region limit is
exceeded, else the chosen address reinterpreted as i64.  The store inside
the zero loop is unwrapped with `.expect`, so its failure is a panic.
-/
def Memory.mmap (m : Memory) (addr size : Nat) : EmuRes (Memory × Int) :=
  if m.mmapCount > 254 then some (Except.ok (m, -1))
  else if addr = 0 then
    let a := 0x0100000000000000 * m.mmapCount
    let m1 := { m with mmapCount := m.mmapCount + 1 }
    match m1.growHeap (a + Nat.lor size PAGE_MASK) with
    | none => none
    | some m2 => some (Except.ok (m2, toI64 a))
  else
    let heapIndex := Memory.heapIndex addr
    let need := addr + Nat.lor size PAGE_MASK
    let m1 := if m.heapEnd heapIndex < need then m.growHeap need else some m
    match m1 with
    | none => none
    | some m2 =>
      match m2.zeroRange addr (Nat.lor size PAGE_MASK) with
      | some (Except.ok m3) => some (Except.ok (m3, toI64 addr))
      | _ => none

/--
Memory::mmap_file: slice the descriptor bytes (a panic when out of range),
reserve with mmap, then copy the bytes in when the address is nonnegative.
-/
def Memory.mmapFile (m : Memory) (descriptor : FileDescriptor) (addr offset len : Nat) :
    EmuRes (Memory × Int) :=
  if offset + len ≤ descriptor.data.length then
    let data := (descriptor.data.drop offset).take len
    EmuRes.bind (m.mmap addr data.length) (fun r =>
      if r.2 ≥ 0 then
        EmuRes.mapOk (r.1.writeN data r.2.toNat len) (fun m3 => (m3, r.2))
      else some (Except.ok (r.1, r.2)))
  else none

/-- Memory::usage; the source short-circuits to zero -/
def Memory.usage (_m : Memory) : Nat := 0

/--
Byte-collection loop of Memory::read_string_n: load bytes until a NUL or the
length bound, returning the collected prefix without the NUL.
-/
def Memory.readStrLoop (m : Memory) : Nat → Nat → Except RVError (List Nat)
  | 0, _ => Except.ok []
  | n + 1, addr =>
    match m.load addr 1 with
    | Except.error e => Except.error e
    | Except.ok c =>
      if c = 0 then Except.ok []
      else (Memory.readStrLoop m n ((addr + 1) % 2 ^ 64)).map (fun t => c :: t)

/-- continuation byte test for the UTF-8 decoder -/
def isCont (b : Nat) : Bool := 0x80 ≤ b && b ≤ 0xBF

/-- UTF-8 encoding of the replacement character U+FFFD -/
def replChar : List Nat := [0xEF, 0xBF, 0xBD]

/-- lower bound of the second byte of a UTF-8 sequence led by `b` -/
def contLo (b : Nat) : Nat := if b = 0xE0 then 0xA0 else if b = 0xF0 then 0x90 else 0x80

/-- upper bound of the second byte of a UTF-8 sequence led by `b` -/
def contHi (b : Nat) : Nat := if b = 0xED then 0x9F else if b = 0xF4 then 0x8F else 0xBF

/--
String::from_utf8_lossy viewed through the UTF-8 bytes of the resulting
String: valid sequences are copied, each maximal invalid subpart is replaced
by U+FFFD, per the WHATWG decoding the Rust standard library implements.
-/
def utf8Lossy : List Nat → List Nat
  | [] => []
  | b :: rest =>
    if b < 0x80 then b :: utf8Lossy rest
    else if 0xC2 ≤ b ∧ b ≤ 0xDF then
      match rest with
      | [] => replChar
      | c :: r => if isCont c then b :: c :: utf8Lossy r else replChar ++ utf8Lossy (c :: r)
    else if 0xE0 ≤ b ∧ b ≤ 0xEF then
      match rest with
      | [] => replChar
      | c1 :: r1 =>
        if contLo b ≤ c1 ∧ c1 ≤ contHi b then
          match r1 with
          | [] => replChar
          | c2 :: r2 =>
            if isCont c2 then b :: c1 :: c2 :: utf8Lossy r2
            else replChar ++ utf8Lossy (c2 :: r2)
        else replChar ++ utf8Lossy (c1 :: r1)
    else if 0xF0 ≤ b ∧ b ≤ 0xF4 then
      match rest with
      | [] => replChar
      | c1 :: r1 =>
        if contLo b ≤ c1 ∧ c1 ≤ contHi b then
          match r1 with
          | [] => replChar
          | c2 :: r2 =>
            if isCont c2 then
              match r2 with
              | [] => replChar
              | c3 :: r3 =>
                if isCont c3 then b :: c1 :: c2 :: c3 :: utf8Lossy r3
                else replChar ++ utf8Lossy (c3 :: r3)
            else replChar ++ utf8Lossy (c2 :: r2)
        else replChar ++ utf8Lossy (c1 :: r1)
    else replChar ++ utf8Lossy rest

/--
Memory::read_string_n: read at most `len` bytes up to a NUL and decode them
lossily; the result stands for the UTF-8 bytes of the returned String.
-/
def Memory.readStringN (m : Memory) (addr len : Nat) : Except RVError (List Nat) :=
  (Memory.readStrLoop m len addr).map utf8Lossy

/--
Memory::read_file: copy descriptor bytes from the stored offset into guest
memory, at most `count` and at most to the end of the data; returns the
number of bytes copied.  A stored offset beyond the data end makes the Rust
slice expression panic.  The descriptor offset is not advanced by the source.
-/
def Memory.readFile (m : Memory) (fd : FileDescriptor) (buf count : Nat) :
    EmuRes (Memory × Int) :=
  if fd.offset ≤ fd.data.length then
    let mx := min (fd.offset + count) fd.data.length
    let data := (fd.data.drop fd.offset).take (mx - fd.offset)
    EmuRes.mapOk (m.writeN data buf data.length) (fun m2 => (m2, (data.length : Int)))
  else none

/-- Rust i64 division: panics on divisor zero and on MIN / -1; truncates toward zero -/
def rustDivI64 (a b : Int) : Option Int :=
  if b = 0 then none else if a = -(2 ^ 63) ∧ b = -1 then none else some (Int.tdiv a b)

/-- Rust i32 division -/
def rustDivI32 (a b : Int) : Option Int :=
  if b = 0 then none else if a = -(2 ^ 31) ∧ b = -1 then none else some (Int.tdiv a b)

/-- Rust i32 remainder: panics on divisor zero and on MIN % -1 -/
def rustRemI32 (a b : Int) : Option Int :=
  if b = 0 then none else if a = -(2 ^ 31) ∧ b = -1 then none else some (Int.tmod a b)

/-- Rust unsigned division: panics on divisor zero -/
def rustDivU (a b : Nat) : Option Nat := if b = 0 then none else some (a / b)

/-- Rust unsigned remainder: panics on divisor zero -/
def rustRemU (a b : Nat) : Option Nat := if b = 0 then none else some (a % b)

/-- functional update of a register file -/
def setReg (x : Nat → Nat) (r v : Nat) : Nat → Nat := fun i => if i = r then v else x i

/-- ABI register number of ra -/
def RA : Nat := 1

/-- ABI register number of sp -/
def SP : Nat := 2

/-- ABI register number of a0 -/
def A0 : Nat := 10

/-- ABI register number of a7 -/
def A7 : Nat := 17

/--
Modelled from the spec: the interpreter treats f64 values by their 64-bit
patterns; loads, stores and moves are bit-exact and are modelled directly,
while the spec declares the remaining floating-point arithmetic (the f32 to
f64 widening of FLW, the f64 to f32 narrowing of FSW, the float-to-integer
casts of FCVT, the comparison of FLE.D and the division of FDIV.D) an
approximation with rounding ignored.  IEEE semantics is outside this
embedding, so those five kernels are an explicit parameter of the
interpreter; every theorem below holds for all parameter values.
-/
structure FpSem where
  f32BitsToF64Bits : Nat → Nat
  f64BitsToF32Bits : Nat → Nat
  f64BitsToU64 : Nat → Nat
  f64Lt : Nat → Nat → Bool
  f64Div : Nat → Nat → Nat

/-- FP semantics instance used only to instantiate witnesses -/
def trivialFp : FpSem :=
  { f32BitsToF64Bits := fun _ => 0
    f64BitsToF32Bits := fun _ => 0
    f64BitsToU64 := fun _ => 0
    f64Lt := fun _ _ => false
    f64Div := fun _ _ => 0 }

/--
Emulator from src/remu/src/emulator.rs.  Strings hold the UTF-8 bytes of the
Rust Strings; the file-descriptor table is an association list keyed by the
i64 descriptor number.
-/
structure Emulator where
  pc : Nat
  x : Nat → Nat
  f : Nat → Nat
  memory : Memory
  fileDescriptors : List (Int × FileDescriptor)
  stdout : List Nat
  stderr : List Nat
  profileStartPoint : Option Nat
  profileEndPoint : Option Nat
  profiler : Profiler
  instCounter : Nat
  maxMemory : Nat
  exitCode : Option Nat
  ignoreDynamicLinkerInstructions : Bool

/-- HashMap::get on the descriptor table -/
def fdLookup (l : List (Int × FileDescriptor)) (k : Int) : Option FileDescriptor :=
  (l.find? (fun p => p.1 == k)).map (fun p => p.2)

/-- HashMap::insert on the descriptor table (replaces an existing key) -/
def fdInsert (l : List (Int × FileDescriptor)) (k : Int) (v : FileDescriptor) :
    List (Int × FileDescriptor) :=
  (k, v) :: l.filter (fun p => !(p.1 == k))

/-- HashMap::remove on the descriptor table -/
def fdRemove (l : List (Int × FileDescriptor)) (k : Int) : List (Int × FileDescriptor) :=
  l.filter (fun p => !(p.1 == k))

/-- membership test on the descriptor table -/
def fdContains (l : List (Int × FileDescriptor)) (k : Int) : Bool :=
  l.any (fun p => p.1 == k)

/-- in-place update of one descriptor (HashMap::get_mut plus assignment) -/
def fdUpdate (l : List (Int × FileDescriptor)) (k : Int) (v : FileDescriptor) :
    List (Int × FileDescriptor) :=
  l.map (fun p => if p.1 == k then (k, v) else p)

/-- Syscall from src/src/syscalls.rs -/
inductive Syscall where
  | Faccessat
  | Openat
  | Close
  | Lseek
  | Read
  | Write
  | Writev
  | Readlinkat
  | Newfstatat
  | Exit
  | ExitGroup
  | SetTidAddress
  | Futex
  | SetRobustList
  | ClockGettime
  | SchedYield
  | Tgkill
  | RtSigaction
  | RtSigprocmask
  | Getpid
  | Gettid
  | Brk
  | Munmap
  | Mmap
  | Mprotect
  | Prlimit64
  | Getrandom

/-- FromPrimitive::from_u64 for Syscall -/
def Syscall.fromNat (id : Nat) : Option Syscall :=
  match id with
  | 48 => some Syscall.Faccessat
  | 56 => some Syscall.Openat
  | 57 => some Syscall.Close
  | 62 => some Syscall.Lseek
  | 63 => some Syscall.Read
  | 64 => some Syscall.Write
  | 66 => some Syscall.Writev
  | 78 => some Syscall.Readlinkat
  | 79 => some Syscall.Newfstatat
  | 93 => some Syscall.Exit
  | 94 => some Syscall.ExitGroup
  | 96 => some Syscall.SetTidAddress
  | 98 => some Syscall.Futex
  | 99 => some Syscall.SetRobustList
  | 113 => some Syscall.ClockGettime
  | 124 => some Syscall.SchedYield
  | 131 => some Syscall.Tgkill
  | 134 => some Syscall.RtSigaction
  | 135 => some Syscall.RtSigprocmask
  | 172 => some Syscall.Getpid
  | 178 => some Syscall.Gettid
  | 214 => some Syscall.Brk
  | 215 => some Syscall.Munmap
  | 222 => some Syscall.Mmap
  | 226 => some Syscall.Mprotect
  | 261 => some Syscall.Prlimit64
  | 278 => some Syscall.Getrandom
  | _ => none

/-- UTF-8 bytes of the path string for libc in Openat -/
def pathLibc : List Nat :=
  [47, 108, 105, 98, 47, 116, 108, 115, 47, 108, 105, 98, 99, 46, 115, 111, 46, 54]

/-- UTF-8 bytes of the path string for libstdc++ in Openat -/
def pathLibcpp : List Nat :=
  [47, 108, 105, 98, 47, 116, 108, 115, 47, 108, 105, 98, 115, 116, 100, 99, 43, 43, 46, 115, 111, 46, 54]

/-- UTF-8 bytes of the path string for libm in Openat -/
def pathLibm : List Nat :=
  [47, 108, 105, 98, 47, 116, 108, 115, 47, 108, 105, 98, 109, 46, 115, 111, 46, 54]

/-- UTF-8 bytes of the path string for libgcc_s in Openat -/
def pathLibgccs : List Nat :=
  [47, 108, 105, 98, 47, 116, 108, 115, 47, 108, 105, 98, 103, 99, 99, 95, 115, 46, 115, 111, 46, 49]

/-- UTF-8 bytes of the path Readlinkat matches against -/
def pathProcSelfExe : List Nat :=
  [47, 112, 114, 111, 99, 47, 115, 101, 108, 102, 47, 101, 120, 101]

/-- UTF-8 bytes of the NUL-terminated program name written by Readlinkat -/
def progBytes : List Nat := [47, 112, 114, 111, 103, 0]

/-- iovec walk of the Writev arm: collects the decoded bytes of every buffer -/
def writevLoop (m : Memory) (iovecs : Nat) : Nat → Nat → List Nat → EmuRes (List Nat)
  | _, 0, acc => some (Except.ok acc)
  | i, r + 1, acc =>
    match m.load ((iovecs + i * 16) % 2 ^ 64) 8 with
    | Except.error e => some (Except.error e)
    | Except.ok ptr =>
      match m.load ((iovecs + 8 + i * 16) % 2 ^ 64) 8 with
      | Except.error e => some (Except.error e)
      | Except.ok len =>
        match m.readStringN ptr len with
        | Except.error e => some (Except.error e)
        | Except.ok s => writevLoop m iovecs (i + 1) r (acc ++ s)

/-- byte-fill loop of the Getrandom arm -/
def getrandomLoop (m : Memory) (addr : Nat) : Nat → EmuRes Memory
  | 0 => some (Except.ok m)
  | k + 1 => EmuRes.bind (m.store addr 1 0xff) (fun m2 => getrandomLoop m2 (addr + 1) k)

/--
Emulator::syscall from src/remu/src/emulator.rs.  An id outside the syscall
table makes the `FromPrimitive` unwrap panic (`none`); the `assert!(fd <= 2)`
in Write and Writev panics likewise.
-/
def Emulator.syscall (em : Emulator) (id : Nat) : EmuRes Emulator :=
  let arg := em.x A0
  match Syscall.fromNat id with
  | none => none
  | some sc =>
    match sc with
    | Syscall.Faccessat => some (Except.ok { em with x := setReg em.x A0 (2 ^ 64 - 1) })
    | Syscall.Openat =>
      match em.memory.readStringN (em.x 11) 512 with
      | Except.error e => some (Except.error e)
      | Except.ok filename =>
        if filename = pathLibc then
          some (Except.ok { em with
            fileDescriptors := fdInsert em.fileDescriptors LIBC_FILE_DESCRIPTOR
              { offset := 0, data := LIBC_DATA }
            x := setReg em.x A0 (ofI64 LIBC_FILE_DESCRIPTOR) })
        else if filename = pathLibcpp then
          some (Except.ok { em with
            fileDescriptors := fdInsert em.fileDescriptors LIBCPP_FILE_DESCRIPTOR
              { offset := 0, data := LIBCPP_DATA }
            x := setReg em.x A0 (ofI64 LIBCPP_FILE_DESCRIPTOR) })
        else if filename = pathLibm then
          some (Except.ok { em with
            fileDescriptors := fdInsert em.fileDescriptors LIBM_FILE_DESCRIPTOR
              { offset := 0, data := LIBM_DATA }
            x := setReg em.x A0 (ofI64 LIBM_FILE_DESCRIPTOR) })
        else if filename = pathLibgccs then
          some (Except.ok { em with
            fileDescriptors := fdInsert em.fileDescriptors LIBGCCS_FILE_DESCRIPTOR
              { offset := 0, data := LIBGCCS_DATA }
            x := setReg em.x A0 (ofI64 LIBGCCS_FILE_DESCRIPTOR) })
        else some (Except.ok { em with x := setReg em.x A0 (2 ^ 64 - 1) })
    | Syscall.Close =>
      let fd := toI64 (em.x A0)
      if fdContains em.fileDescriptors fd then
        some (Except.ok { em with
          fileDescriptors := fdRemove em.fileDescriptors fd
          x := setReg em.x A0 0 })
      else some (Except.ok { em with x := setReg em.x A0 (2 ^ 64 - 1) })
    | Syscall.Lseek =>
      let fd := toI64 (em.x A0)
      let offset := em.x 11
      let whence := em.x 12
      match fdLookup em.fileDescriptors fd with
      | some descriptor =>
        match whence with
        | 0 => some (Except.ok { em with
            fileDescriptors := fdUpdate em.fileDescriptors fd { descriptor with offset := offset } })
        | 1 => some (Except.ok { em with
            fileDescriptors := fdUpdate em.fileDescriptors fd
              { descriptor with offset := wadd64 descriptor.offset offset } })
        | 2 => some (Except.ok { em with
            fileDescriptors := fdUpdate em.fileDescriptors fd
              { descriptor with offset := wadd64 descriptor.data.length offset } })
        | _ => some (Except.ok { em with x := setReg em.x A0 (2 ^ 64 - 1) })
      | none => some (Except.ok { em with x := setReg em.x A0 (2 ^ 64 - 1) })
    | Syscall.Read =>
      let fd := toI64 (em.x A0)
      let buf := em.x 11
      let count := em.x 12
      match fdLookup em.fileDescriptors fd with
      | some entry =>
        EmuRes.bind (em.memory.readFile entry buf count) (fun r =>
          some (Except.ok { em with memory := r.1, x := setReg em.x A0 (ofI64 r.2) }))
      | none => some (Except.ok { em with x := setReg em.x A0 (2 ^ 64 - 1) })
    | Syscall.Write =>
      let fd := em.x A0
      if fd ≤ 2 then
        let ptr := em.x 11
        let len := em.x 12
        match em.memory.readStringN ptr len with
        | Except.error e => some (Except.error e)
        | Except.ok s =>
          some (Except.ok { em with stdout := em.stdout ++ s, x := setReg em.x A0 len })
      else none
    | Syscall.Writev =>
      let fd := em.x A0
      if fd ≤ 2 then
        let iovecs := em.x 11
        let iovcnt := em.x 12
        EmuRes.mapOk (writevLoop em.memory iovecs 0 iovcnt [])
          (fun bytes => { em with stdout := em.stdout ++ bytes })
      else none
    | Syscall.Readlinkat =>
      let addr := em.x 11
      let bufAddr := em.x 12
      let bufsize := em.x 13
      match em.memory.readStringN addr 512 with
      | Except.error e => some (Except.error e)
      | Except.ok s =>
        if s = pathProcSelfExe then
          EmuRes.bind (em.memory.writeN progBytes bufAddr bufsize) (fun m2 =>
            some (Except.ok { em with memory := m2, x := setReg em.x A0 5 }))
        else some (Except.ok { em with x := setReg em.x A0 (2 ^ 64 - 1) })
    | Syscall.Exit => some (Except.ok { em with exitCode := some arg })
    | Syscall.ExitGroup => some (Except.ok { em with exitCode := some arg })
    | Syscall.SetTidAddress => some (Except.ok { em with x := setReg em.x A0 0 })
    | Syscall.Futex =>
      let uaddr := em.x A0
      let futexOp := em.x 11
      if futexOp = 128 then
        EmuRes.bind (em.memory.store uaddr 8 0) (fun m2 =>
          some (Except.ok { em with memory := m2, x := setReg em.x A0 0 }))
      else some (Except.ok { em with x := setReg em.x A0 0 })
    | Syscall.SetRobustList => some (Except.ok { em with x := setReg em.x A0 0 })
    | Syscall.ClockGettime => some (Except.ok em)
    | Syscall.Tgkill => some (Except.ok { em with x := setReg em.x A0 (2 ^ 64 - 1) })
    | Syscall.RtSigaction => some (Except.ok { em with x := setReg em.x A0 0 })
    | Syscall.RtSigprocmask => some (Except.ok { em with x := setReg em.x A0 0 })
    | Syscall.Getpid => some (Except.ok { em with x := setReg em.x A0 0 })
    | Syscall.Gettid => some (Except.ok { em with x := setReg em.x A0 0 })
    | Syscall.Brk =>
      match em.memory.brk 0 with
      | none => none
      | some r0 =>
        match r0.1.brk arg with
        | none => none
        | some r =>
          some (Except.ok { em with memory := r.1, x := setReg em.x A0 r.2 })
    | Syscall.Munmap => some (Except.ok { em with x := setReg em.x A0 0 })
    | Syscall.Mmap =>
      let addr := em.x A0
      let len := em.x 11
      let flags := em.x 13
      let fd := toI64 (em.x 14)
      let offset := em.x 15
      if fd = -1 then
        let r := if Nat.land flags 0x10 ≠ 0 then em.memory.mmap addr len else em.memory.mmap 0 len
        EmuRes.bind r (fun p =>
          some (Except.ok { em with memory := p.1, x := setReg em.x A0 (ofI64 p.2) }))
      else
        match fdLookup em.fileDescriptors fd with
        | some descriptor =>
          EmuRes.bind (em.memory.mmapFile descriptor addr offset len) (fun p =>
            some (Except.ok { em with memory := p.1, x := setReg em.x A0 (ofI64 p.2) }))
        | none => some (Except.ok { em with x := setReg em.x A0 (2 ^ 64 - 1) })
    | Syscall.Mprotect => some (Except.ok { em with x := setReg em.x A0 0 })
    | Syscall.Prlimit64 => some (Except.ok { em with x := setReg em.x A0 0 })
    | Syscall.Getrandom =>
      let buf := em.x A0
      let buflen := em.x 11
      EmuRes.bind (getrandomLoop em.memory buf (wadd64 buf buflen - buf)) (fun m2 =>
        some (Except.ok { em with memory := m2, x := setReg em.x A0 buflen }))
    | Syscall.Newfstatat =>
      match em.memory.readStringN (em.x 11) 512 with
      | Except.error e => some (Except.error e)
      | Except.ok _ =>
        some (Except.ok { em with x := setReg em.x A0 0 })
    | Syscall.SchedYield => some (Except.ok { em with x := setReg em.x A0 0 })

/--
Tail of Emulator::execute: advance pc by the instruction length, bump the
instruction counter, tick the profiler at the new pc, and re-zero x0.
-/
def Emulator.commitTail (em : Emulator) (incr : Nat) : Emulator :=
  let pc2 := wadd64 em.pc incr
  { em with pc := pc2
            instCounter := em.instCounter + 1
            profiler := em.profiler.tick pc2
            x := setReg em.x 0 0 }

/--
Match body of Emulator::execute from src/remu/src/emulator.rs (the per-opcode
semantics before the common tail).  Panics (integer division by zero or
overflow, syscall asserts) are `none`; memory faults propagate as errors.
-/
def Emulator.executeMatch (fp : FpSem) (em : Emulator) (inst : Inst) (incr : Nat) :
    EmuRes Emulator :=
  match inst with
  | Inst.Fence => some (Except.ok em)
  | Inst.Ebreak => some (Except.ok em)
  | Inst.Ecall =>
    let em1 := { em with profiler := em.profiler.pipelineStallX A7 em.pc }
    em1.syscall (em1.x A7)
  | Inst.Error _ => some (Except.ok em)
  | Inst.Lui rd imm => some (Except.ok { em with x := setReg em.x rd (ofI64 imm) })
  | Inst.Ld rd rs1 offset =>
    let p1 := em.profiler.pipelineStallX rs1 em.pc
    let addr := wadd64 (em.x rs1) (ofI64 offset)
    let p2 := p1.addLoadDelayX rd addr em.pc
    match em.memory.load addr 8 with
    | Except.error e => some (Except.error e)
    | Except.ok v => some (Except.ok { em with profiler := p2, x := setReg em.x rd v })
  | Inst.Fld rd rs1 offset =>
    let p1 := em.profiler.pipelineStallX rs1 em.pc
    let addr := wadd64 (em.x rs1) (ofI64 offset)
    let p2 := p1.addLoadDelayF rd addr em.pc
    match em.memory.load addr 8 with
    | Except.error e => some (Except.error e)
    | Except.ok v => some (Except.ok { em with profiler := p2, f := setReg em.f rd v })
  | Inst.Flw rd rs1 offset =>
    let p1 := em.profiler.pipelineStallX rs1 em.pc
    let addr := wadd64 (em.x rs1) (ofI64 offset)
    let p2 := p1.addLoadDelayF rd addr em.pc
    match em.memory.load addr 4 with
    | Except.error e => some (Except.error e)
    | Except.ok v =>
      some (Except.ok { em with profiler := p2, f := setReg em.f rd (fp.f32BitsToF64Bits v) })
  | Inst.Lw rd rs1 offset =>
    let p1 := em.profiler.pipelineStallX rs1 em.pc
    let addr := wadd64 (em.x rs1) (ofI64 offset)
    let p2 := p1.addLoadDelayX rd addr em.pc
    match em.memory.load addr 4 with
    | Except.error e => some (Except.error e)
    | Except.ok v => some (Except.ok { em with profiler := p2, x := setReg em.x rd (ofI64 (toI32 v)) })
  | Inst.Lwu rd rs1 offset =>
    let p1 := em.profiler.pipelineStallX rs1 em.pc
    let addr := wadd64 (em.x rs1) (ofI64 offset)
    let p2 := p1.addLoadDelayX rd addr em.pc
    match em.memory.load addr 4 with
    | Except.error e => some (Except.error e)
    | Except.ok v => some (Except.ok { em with profiler := p2, x := setReg em.x rd v })
  | Inst.Lhu rd rs1 offset =>
    let p1 := em.profiler.pipelineStallX rs1 em.pc
    let addr := wadd64 (em.x rs1) (ofI64 offset)
    let p2 := p1.addLoadDelayX rd addr em.pc
    match em.memory.load addr 2 with
    | Except.error e => some (Except.error e)
    | Except.ok v => some (Except.ok { em with profiler := p2, x := setReg em.x rd v })
  | Inst.Lb rd rs1 offset =>
    let p1 := em.profiler.pipelineStallX rs1 em.pc
    let addr := wadd64 (em.x rs1) (ofI64 offset)
    let p2 := p1.addLoadDelayX rd addr em.pc
    match em.memory.load addr 1 with
    | Except.error e => some (Except.error e)
    | Except.ok v => some (Except.ok { em with profiler := p2, x := setReg em.x rd (ofI64 (toI8 v)) })
  | Inst.Lbu rd rs1 offset =>
    let p1 := em.profiler.pipelineStallX rs1 em.pc
    let addr := wadd64 (em.x rs1) (ofI64 offset)
    let p2 := p1.addLoadDelayX rd addr em.pc
    match em.memory.load addr 1 with
    | Except.error e => some (Except.error e)
    | Except.ok v => some (Except.ok { em with profiler := p2, x := setReg em.x rd v })
  | Inst.Sd rs1 rs2 offset =>
    let p1 := em.profiler.pipelineStallXX rs1 rs2 em.pc
    let addr := wadd64 (em.x rs1) (ofI64 offset)
    EmuRes.mapOk (em.memory.store addr 8 (em.x rs2 % 2 ^ 64))
      (fun m2 => { em with profiler := p1, memory := m2 })
  | Inst.Fsd rs1 rs2 offset =>
    let p1 := em.profiler.pipelineStallXF rs1 rs2 em.pc
    let addr := wadd64 (em.x rs1) (ofI64 offset)
    EmuRes.mapOk (em.memory.store addr 8 (em.f rs2 % 2 ^ 64))
      (fun m2 => { em with profiler := p1, memory := m2 })
  | Inst.Fsw rs1 rs2 offset =>
    let p1 := em.profiler.pipelineStallXF rs1 rs2 em.pc
    let addr := wadd64 (em.x rs1) (ofI64 offset)
    EmuRes.mapOk (em.memory.store addr 4 (fp.f64BitsToF32Bits (em.f rs2)))
      (fun m2 => { em with profiler := p1, memory := m2 })
  | Inst.Sw rs1 rs2 offset =>
    let p1 := em.profiler.pipelineStallXX rs1 rs2 em.pc
    let addr := wadd64 (em.x rs1) (ofI64 offset)
    EmuRes.mapOk (em.memory.store addr 4 (em.x rs2 % 2 ^ 32))
      (fun m2 => { em with profiler := p1, memory := m2 })
  | Inst.Sh rs1 rs2 offset =>
    let p1 := em.profiler.pipelineStallXX rs1 rs2 em.pc
    let addr := wadd64 (em.x rs1) (ofI64 offset)
    EmuRes.mapOk (em.memory.store addr 2 (em.x rs2 % 2 ^ 16))
      (fun m2 => { em with profiler := p1, memory := m2 })
  | Inst.Sb rs1 rs2 offset =>
    let p1 := em.profiler.pipelineStallXX rs1 rs2 em.pc
    let addr := wadd64 (em.x rs1) (ofI64 offset)
    EmuRes.mapOk (em.memory.store addr 1 (em.x rs2 % 2 ^ 8))
      (fun m2 => { em with profiler := p1, memory := m2 })
  | Inst.Add rd rs1 rs2 =>
    let p1 := em.profiler.pipelineStallXX rs1 rs2 em.pc
    some (Except.ok { em with profiler := p1, x := setReg em.x rd (wadd64 (em.x rs1) (em.x rs2)) })
  | Inst.Addw rd rs1 rs2 =>
    let p1 := em.profiler.pipelineStallXX rs1 rs2 em.pc
    some (Except.ok { em with profiler := p1, x := setReg em.x rd (ofI64 (wrapI32 (toI32 (em.x rs1) + toI32 (em.x rs2)))) })
  | Inst.Addi rd rs1 imm =>
    let p1 := em.profiler.pipelineStallX rs1 em.pc
    some (Except.ok { em with profiler := p1, x := setReg em.x rd (wadd64 (em.x rs1) (ofI64 imm)) })
  | Inst.Addiw rd rs1 imm =>
    let p1 := em.profiler.pipelineStallX rs1 em.pc
    some (Except.ok { em with profiler := p1, x := setReg em.x rd (ofI64 (wrapI32 (toI32 (em.x rs1) + toI32 imm))) })
  | Inst.And rd rs1 rs2 =>
    let p1 := em.profiler.pipelineStallXX rs1 rs2 em.pc
    some (Except.ok { em with profiler := p1, x := setReg em.x rd (Nat.land (em.x rs1) (em.x rs2)) })
  | Inst.Andi rd rs1 imm =>
    let p1 := em.profiler.pipelineStallX rs1 em.pc
    some (Except.ok { em with profiler := p1, x := setReg em.x rd (Nat.land (em.x rs1) (ofI64 imm)) })
  | Inst.Sub rd rs1 rs2 =>
    let p1 := em.profiler.pipelineStallXX rs1 rs2 em.pc
    some (Except.ok { em with profiler := p1, x := setReg em.x rd (wsub64 (em.x rs1) (em.x rs2)) })
  | Inst.Subw rd rs1 rs2 =>
    let p1 := em.profiler.pipelineStallXX rs1 rs2 em.pc
    some (Except.ok { em with profiler := p1, x := setReg em.x rd (ofI64 (wrapI32 (toI32 (em.x rs1) - toI32 (em.x rs2)))) })
  | Inst.Sll rd rs1 rs2 =>
    let p1 := em.profiler.pipelineStallXX rs1 rs2 em.pc
    some (Except.ok { em with profiler := p1, x := setReg em.x rd (((em.x rs1) <<< (em.x rs2 % 64)) % 2 ^ 64) })
  | Inst.Sllw rd rs1 rs2 =>
    let p1 := em.profiler.pipelineStallXX rs1 rs2 em.pc
    some (Except.ok { em with profiler := p1, x := setReg em.x rd (ofI64 (toI32 (((em.x rs1 % 2 ^ 32) <<< (em.x rs2 % 32)) % 2 ^ 32))) })
  | Inst.Slli rd rs1 shamt =>
    let p1 := em.profiler.pipelineStallX rs1 em.pc
    some (Except.ok { em with profiler := p1, x := setReg em.x rd (((em.x rs1) <<< (shamt % 64)) % 2 ^ 64) })
  | Inst.Slliw rd rs1 shamt =>
    let p1 := em.profiler.pipelineStallX rs1 em.pc
    some (Except.ok { em with profiler := p1, x := setReg em.x rd (((em.x rs1 % 2 ^ 32) <<< (shamt % 32)) % 2 ^ 32) })
  | Inst.Srl rd rs1 rs2 =>
    let p1 := em.profiler.pipelineStallXX rs1 rs2 em.pc
    some (Except.ok { em with profiler := p1, x := setReg em.x rd ((em.x rs1 % 2 ^ 64) >>> (em.x rs2 % 64)) })
  | Inst.Srlw rd rs1 rs2 =>
    let p1 := em.profiler.pipelineStallXX rs1 rs2 em.pc
    some (Except.ok { em with profiler := p1, x := setReg em.x rd (ofI64 (toI32 ((em.x rs1 % 2 ^ 32) >>> (em.x rs2 % 32)))) })
  | Inst.Srli rd rs1 shamt =>
    let p1 := em.profiler.pipelineStallX rs1 em.pc
    some (Except.ok { em with profiler := p1, x := setReg em.x rd ((em.x rs1 % 2 ^ 64) >>> (shamt % 64)) })
  | Inst.Srliw rd rs1 shamt =>
    let p1 := em.profiler.pipelineStallX rs1 em.pc
    some (Except.ok { em with profiler := p1, x := setReg em.x rd ((em.x rs1 % 2 ^ 32) >>> (shamt % 32)) })
  | Inst.Sra rd rs1 rs2 =>
    let p1 := em.profiler.pipelineStallXX rs1 rs2 em.pc
    some (Except.ok { em with profiler := p1, x := setReg em.x rd (ofI64 (ashr (toI64 (em.x rs1)) (em.x rs2 % 64))) })
  | Inst.Sraw rd rs1 rs2 =>
    let p1 := em.profiler.pipelineStallXX rs1 rs2 em.pc
    some (Except.ok { em with profiler := p1, x := setReg em.x rd (ofI64 (ashr (toI32 (em.x rs1)) (em.x rs2 % 32))) })
  | Inst.Srai rd rs1 shamt =>
    let p1 := em.profiler.pipelineStallX rs1 em.pc
    some (Except.ok { em with profiler := p1, x := setReg em.x rd (ofI64 (ashr (toI64 (em.x rs1)) (shamt % 64))) })
  | Inst.Sraiw rd rs1 shamt =>
    let p1 := em.profiler.pipelineStallX rs1 em.pc
    some (Except.ok { em with profiler := p1, x := setReg em.x rd (ofI64 (ashr (toI32 (em.x rs1)) (shamt % 32))) })
  | Inst.Or rd rs1 rs2 =>
    let p1 := em.profiler.pipelineStallXX rs1 rs2 em.pc
    some (Except.ok { em with profiler := p1, x := setReg em.x rd (Nat.lor (em.x rs1) (em.x rs2)) })
  | Inst.Ori rd rs1 imm =>
    let p1 := em.profiler.pipelineStallX rs1 em.pc
    some (Except.ok { em with profiler := p1, x := setReg em.x rd (Nat.lor (em.x rs1) (ofI64 imm)) })
  | Inst.Xor rd rs1 rs2 =>
    let p1 := em.profiler.pipelineStallXX rs1 rs2 em.pc
    some (Except.ok { em with profiler := p1, x := setReg em.x rd (Nat.xor (em.x rs1) (em.x rs2)) })
  | Inst.Xori rd rs1 imm =>
    let p1 := em.profiler.pipelineStallX rs1 em.pc
    some (Except.ok { em with profiler := p1, x := setReg em.x rd (Nat.xor (em.x rs1) (ofI64 imm)) })
  | Inst.Auipc rd imm =>
    some (Except.ok { em with x := setReg em.x rd (wadd64 em.pc (ofI64 imm)) })
  | Inst.Jal rd offset =>
    let x2 := setReg em.x rd (wadd64 em.pc incr)
    some (Except.ok { em with x := x2, pc := wsub64 (wadd64 em.pc (ofI64 offset)) incr })
  | Inst.Jalr rd rs1 offset =>
    let p1 := em.profiler.pipelineStallX rs1 em.pc
    let x2 := setReg em.x rd (wadd64 em.pc incr)
    some (Except.ok { em with profiler := p1, x := x2, pc := wsub64 (wadd64 (x2 rs1) (ofI64 offset)) incr })
  | Inst.Beq rs1 rs2 offset =>
    let p1 := em.profiler.pipelineStallXX rs1 rs2 em.pc
    if em.x rs1 = em.x rs2 then
      some (Except.ok { em with profiler := p1.branchTaken em.pc, pc := wsub64 (wadd64 em.pc (ofI64 offset)) incr })
    else some (Except.ok { em with profiler := p1.branchNotTaken em.pc })
  | Inst.Bne rs1 rs2 offset =>
    let p1 := em.profiler.pipelineStallXX rs1 rs2 em.pc
    if em.x rs1 ≠ em.x rs2 then
      some (Except.ok { em with profiler := p1.branchTaken em.pc, pc := wsub64 (wadd64 em.pc (ofI64 offset)) incr })
    else some (Except.ok { em with profiler := p1.branchNotTaken em.pc })
  | Inst.Blt rs1 rs2 offset =>
    let p1 := em.profiler.pipelineStallXX rs1 rs2 em.pc
    if toI64 (em.x rs1) < toI64 (em.x rs2) then
      some (Except.ok { em with profiler := p1.branchTaken em.pc, pc := wsub64 (wadd64 em.pc (ofI64 offset)) incr })
    else some (Except.ok { em with profiler := p1.branchNotTaken em.pc })
  | Inst.Bltu rs1 rs2 offset =>
    let p1 := em.profiler.pipelineStallXX rs1 rs2 em.pc
    if em.x rs1 < em.x rs2 then
      some (Except.ok { em with profiler := p1.branchTaken em.pc, pc := wsub64 (wadd64 em.pc (ofI64 offset)) incr })
    else some (Except.ok { em with profiler := p1.branchNotTaken em.pc })
  | Inst.Slt rd rs1 rs2 =>
    let p1 := em.profiler.pipelineStallXX rs1 rs2 em.pc
    some (Except.ok { em with profiler := p1, x := setReg em.x rd (if toI64 (em.x rs1) < toI64 (em.x rs2) then 1 else 0) })
  | Inst.Sltu rd rs1 rs2 =>
    let p1 := em.profiler.pipelineStallXX rs1 rs2 em.pc
    some (Except.ok { em with profiler := p1, x := setReg em.x rd (if em.x rs1 < em.x rs2 then 1 else 0) })
  | Inst.Slti rd rs1 imm =>
    let p1 := em.profiler.pipelineStallX rs1 em.pc
    some (Except.ok { em with profiler := p1, x := setReg em.x rd (if toI64 (em.x rs1) < imm then 1 else 0) })
  | Inst.Sltiu rd rs1 imm =>
    let p1 := em.profiler.pipelineStallX rs1 em.pc
    some (Except.ok { em with profiler := p1, x := setReg em.x rd (if em.x rs1 < imm then 1 else 0) })
  | Inst.Bge rs1 rs2 offset =>
    let p1 := em.profiler.pipelineStallXX rs1 rs2 em.pc
    if toI64 (em.x rs1) ≥ toI64 (em.x rs2) then
      some (Except.ok { em with profiler := p1.branchTaken em.pc, pc := wsub64 (wadd64 em.pc (ofI64 offset)) incr })
    else some (Except.ok { em with profiler := p1.branchNotTaken em.pc })
  | Inst.Bgeu rs1 rs2 offset =>
    let p1 := em.profiler.pipelineStallXX rs1 rs2 em.pc
    if em.x rs1 ≥ em.x rs2 then
      some (Except.ok { em with profiler := p1.branchTaken em.pc, pc := wsub64 (wadd64 em.pc (ofI64 offset)) incr })
    else some (Except.ok { em with profiler := p1.branchNotTaken em.pc })
  | Inst.Div rd rs1 rs2 =>
    let p1 := em.profiler.pipelineStallXX rs1 rs2 em.pc
    let p2 := p1.addDelayX rd
      (divCycleCount (rustAbs64 (toI64 (em.x rs1))) (rustAbs64 (toI64 (em.x rs2))))
    match rustDivI64 (toI64 (em.x rs1)) (toI64 (em.x rs2)) with
    | none => none
    | some q => some (Except.ok { em with profiler := p2, x := setReg em.x rd (ofI64 q) })
  | Inst.Divw rd rs1 rs2 =>
    let p1 := em.profiler.pipelineStallXX rs1 rs2 em.pc
    let p2 := p1.addDelayX rd
      (divCycleCount (rustAbs32 (toI32 (em.x rs1))) (rustAbs32 (toI32 (em.x rs2))))
    match rustDivI32 (toI32 (em.x rs1)) (toI32 (em.x rs2)) with
    | none => none
    | some q => some (Except.ok { em with profiler := p2, x := setReg em.x rd (ofI64 q) })
  | Inst.Divu rd rs1 rs2 =>
    let p1 := em.profiler.pipelineStallXX rs1 rs2 em.pc
    let p2 := p1.addDelayX rd (divCycleCount (em.x rs1) (em.x rs2))
    match rustDivU (em.x rs1) (em.x rs2) with
    | none => none
    | some q => some (Except.ok { em with profiler := p2, x := setReg em.x rd q })
  | Inst.Divuw rd rs1 rs2 =>
    let p1 := em.profiler.pipelineStallXX rs1 rs2 em.pc
    let p2 := p1.addDelayX rd (divCycleCount (em.x rs1 % 2 ^ 32) (em.x rs2 % 2 ^ 32))
    match rustDivU (em.x rs1 % 2 ^ 32) (em.x rs2 % 2 ^ 32) with
    | none => none
    | some q => some (Except.ok { em with profiler := p2, x := setReg em.x rd (ofI64 (toI32 q)) })
  | Inst.Mul rd rs1 rs2 =>
    let p1 := em.profiler.pipelineStallXX rs1 rs2 em.pc
    let p2 := p1.addDelayX rd 3
    some (Except.ok { em with profiler := p2, x := setReg em.x rd (ofI64 (toI64 (em.x rs1) * toI64 (em.x rs2))) })
  | Inst.Mulhu rd rs1 rs2 =>
    let p1 := em.profiler.pipelineStallXX rs1 rs2 em.pc
    let p2 := p1.addDelayX rd 3
    some (Except.ok { em with profiler := p2, x := setReg em.x rd (((em.x rs1 % 2 ^ 64) * (em.x rs2 % 2 ^ 64)) / 2 ^ 64) })
  | Inst.Remw rd rs1 rs2 =>
    let p1 := em.profiler.pipelineStallXX rs1 rs2 em.pc
    let p2 := p1.addDelayX rd
      (divCycleCount (rustAbs32 (toI32 (em.x rs1))) (rustAbs32 (toI32 (em.x rs2))))
    if em.x rs2 = 0 then
      some (Except.ok { em with profiler := p2, x := setReg em.x rd (ofI64 (toI32 (em.x rs1))) })
    else
      match rustRemI32 (toI32 (em.x rs1)) (toI32 (em.x rs2)) with
      | none => none
      | some r => some (Except.ok { em with profiler := p2, x := setReg em.x rd (ofI64 r) })
  | Inst.Remu rd rs1 rs2 =>
    let p1 := em.profiler.pipelineStallXX rs1 rs2 em.pc
    let p2 := p1.addDelayX rd (divCycleCount (em.x rs1) (em.x rs2))
    if em.x rs2 = 0 then
      some (Except.ok { em with profiler := p2, x := setReg em.x rd (em.x rs1) })
    else
      match rustRemU (em.x rs1) (em.x rs2) with
      | none => none
      | some r => some (Except.ok { em with profiler := p2, x := setReg em.x rd r })
  | Inst.Remuw rd rs1 rs2 =>
    let p1 := em.profiler.pipelineStallXX rs1 rs2 em.pc
    let p2 := p1.addDelayX rd (divCycleCount (em.x rs1 % 2 ^ 32) (em.x rs2 % 2 ^ 32))
    if em.x rs2 = 0 then
      some (Except.ok { em with profiler := p2, x := setReg em.x rd (em.x rs1 % 2 ^ 32) })
    else
      match rustRemU (em.x rs1 % 2 ^ 32) (em.x rs2 % 2 ^ 32) with
      | none => none
      | some r => some (Except.ok { em with profiler := p2, x := setReg em.x rd (ofI64 (toI32 r)) })
  | Inst.Amoswapw rd rs1 rs2 =>
    match em.memory.load (em.x rs1) 4 with
    | Except.error e => some (Except.error e)
    | Except.ok v =>
      let em1 := { em with x := setReg em.x rd (ofI64 (toI32 v)) }
      EmuRes.mapOk (em1.memory.store (em1.x rs1) 4 (em1.x rs2 % 2 ^ 32))
        (fun m2 => { em1 with memory := m2 })
  | Inst.Amoswapd rd rs1 rs2 =>
    match em.memory.load (em.x rs1) 8 with
    | Except.error e => some (Except.error e)
    | Except.ok v =>
      let em1 := { em with x := setReg em.x rd v }
      EmuRes.mapOk (em1.memory.store (em1.x rs1) 8 (em1.x rs2 % 2 ^ 64))
        (fun m2 => { em1 with memory := m2 })
  | Inst.Amoaddw rd rs1 rs2 =>
    match em.memory.load (em.x rs1) 4 with
    | Except.error e => some (Except.error e)
    | Except.ok v =>
      let em1 := { em with x := setReg em.x rd (ofI64 (toI32 v)) }
      EmuRes.mapOk (em1.memory.store (em1.x rs1) 4 ((em1.x rs2 % 2 ^ 32 + em1.x rd % 2 ^ 32) % 2 ^ 32))
        (fun m2 => { em1 with memory := m2 })
  | Inst.Amoaddd rd rs1 rs2 =>
    match em.memory.load (em.x rs1) 8 with
    | Except.error e => some (Except.error e)
    | Except.ok v =>
      let em1 := { em with x := setReg em.x rd v }
      EmuRes.mapOk (em1.memory.store (em1.x rs1) 8 (wadd64 (em1.x rs2) (em1.x rd)))
        (fun m2 => { em1 with memory := m2 })
  | Inst.Amoorw rd rs1 rs2 =>
    match em.memory.load (em.x rs1) 4 with
    | Except.error e => some (Except.error e)
    | Except.ok v =>
      let em1 := { em with x := setReg em.x rd (ofI64 (toI32 v)) }
      EmuRes.mapOk (em1.memory.store (em1.x rs1) 4 (Nat.lor (em1.x rs2 % 2 ^ 32) (em1.x rd % 2 ^ 32)))
        (fun m2 => { em1 with memory := m2 })
  | Inst.Amomaxuw rd rs1 rs2 =>
    match em.memory.load (em.x rs1) 4 with
    | Except.error e => some (Except.error e)
    | Except.ok v =>
      let em1 := { em with x := setReg em.x rd (ofI64 (toI32 v)) }
      EmuRes.mapOk (em1.memory.store (em1.x rs1) 4 (max (em1.x rs2 % 2 ^ 32) (em1.x rd % 2 ^ 32)))
        (fun m2 => { em1 with memory := m2 })
  | Inst.Amomaxud rd rs1 rs2 =>
    match em.memory.load (em.x rs1) 8 with
    | Except.error e => some (Except.error e)
    | Except.ok v =>
      let em1 := { em with x := setReg em.x rd v }
      EmuRes.mapOk (em1.memory.store (em1.x rs1) 8 (max (em1.x rs2 % 2 ^ 64) (em1.x rd % 2 ^ 64)))
        (fun m2 => { em1 with memory := m2 })
  | Inst.Lrw rd rs1 =>
    match em.memory.load (em.x rs1) 4 with
    | Except.error e => some (Except.error e)
    | Except.ok v => some (Except.ok { em with x := setReg em.x rd (ofI64 (toI32 v)) })
  | Inst.Lrd rd rs1 =>
    match em.memory.load (em.x rs1) 8 with
    | Except.error e => some (Except.error e)
    | Except.ok v => some (Except.ok { em with x := setReg em.x rd v })
  | Inst.Scw rd rs1 rs2 =>
    let em1 := { em with x := setReg em.x rd 0 }
    EmuRes.mapOk (em1.memory.store (em1.x rs1) 4 (em1.x rs2 % 2 ^ 32))
      (fun m2 => { em1 with memory := m2 })
  | Inst.Scd rd rs1 rs2 =>
    let em1 := { em with x := setReg em.x rd 0 }
    EmuRes.mapOk (em1.memory.store (em1.x rs1) 8 (em1.x rs2 % 2 ^ 64))
      (fun m2 => { em1 with memory := m2 })
  | Inst.Fcvtdlu rd rs1 _rm =>
    some (Except.ok { em with x := setReg em.x rd (fp.f64BitsToU64 (em.f rs1)) })
  | Inst.Fcvtds rd rs1 _rm =>
    some (Except.ok { em with x := setReg em.x rd (fp.f64BitsToU64 (em.f rs1)) })
  | Inst.Fled rd rs1 rs2 =>
    some (Except.ok { em with x := setReg em.x rd (if fp.f64Lt (em.f rs1) (em.f rs2) then 1 else 0) })
  | Inst.Fdivd rd rs1 rs2 =>
    some (Except.ok { em with f := setReg em.f rd (fp.f64Div (em.f rs1) (em.f rs2)) })

/-- Emulator::execute: the per-opcode match followed by the common tail -/
def Emulator.execute (fp : FpSem) (em : Emulator) (inst : Inst) (incr : Nat) :
    EmuRes Emulator :=
  EmuRes.mapOk (Emulator.executeMatch fp em inst incr) (fun em2 => em2.commitTail incr)

/-- NonZeroU64::new -/
def nzNew (n : Nat) : Option Nat := if n = 0 then none else some n

/-- Emulator::fetch: load the 32-bit word at pc and decode it -/
def Emulator.fetch (em : Emulator) : EmuRes (Inst × Nat) :=
  match em.memory.load em.pc 4 with
  | Except.error e => some (Except.error e)
  | Except.ok w =>
    match Inst.decode w with
    | none => none
    | some p => some (Except.ok p)

/--
Emulator::fetch_and_execute from src/remu/src/emulator.rs (the version in
src/remu/src/system/mod.rs lines 248-275 has the identical structure).
Returns the post-step emulator paired with the Rust return value.
-/
def Emulator.fetchAndExecute (fp : FpSem) (em : Emulator) : EmuRes (Emulator × Option Nat) :=
  if em.exitCode.isSome then some (Except.ok (em, em.exitCode))
  else
    EmuRes.bind em.fetch (fun p =>
      let em1 :=
        if nzNew em.pc = em.profileStartPoint then
          { em with profileEndPoint := nzNew (em.x RA)
                    profiler := { em.profiler with running := true } }
        else if nzNew em.pc = em.profileEndPoint then
          { em with profileStartPoint := none
                    profileEndPoint := none
                    profiler := { em.profiler with running := false } }
        else em
      EmuRes.bind (Emulator.execute fp em1 p.1 p.2) (fun em2 =>
        let em3 := { em2 with maxMemory := max em2.maxMemory em2.memory.usage }
        some (Except.ok (em3, em3.exitCode))))

/-- iterate fetch_and_execute a fixed number of steps, stopping on panic or fault -/
def Emulator.stepN (fp : FpSem) : Nat → Emulator → EmuRes Emulator
  | 0, em => some (Except.ok em)
  | n + 1, em =>
    EmuRes.bind (Emulator.fetchAndExecute fp em) (fun p => Emulator.stepN fp n p.1)

/-- extract the success state of a computation, with a default for other outcomes -/
def okState (r : EmuRes Emulator) (d : Emulator) : Emulator :=
  match r with
  | some (Except.ok e) => e
  | _ => d

/-- empty program-header metadata for concrete test states -/
def phEmpty : ProgramHeaderInfo := { entry := 0, address := 0, size := 0, number := 0 }

/-- empty symbol table for concrete test states -/
def emptyDisassembler : Disassembler := { symbols := [] }

/-- memory with no mapped bytes anywhere -/
def memNull : Memory :=
  { buffers := fun _ => [], entry := 0, programHeader := phEmpty
    disassembler := emptyDisassembler, mmapCount := 0 }

/-- baseline emulator state over memNull with cleared registers -/
def emBase : Emulator :=
  { pc := 0, x := fun _ => 0, f := fun _ => 0, memory := memNull, fileDescriptors := []
    stdout := [], stderr := [], profileStartPoint := none, profileEndPoint := none
    profiler := Profiler.new, instCounter := 0, maxMemory := 0, exitCode := none
    ignoreDynamicLinkerInstructions := true }

/-- state with x1 = 5 and x2 = 0: divisor register zero for the division claims -/
def emDiv : Emulator := { emBase with x := setReg emBase.x 1 5 }

/-- state at pc 0x100 with x1 = 0x2001 (an odd jump base) for the JALR claim -/
def emJalr : Emulator := { emBase with pc := 0x100, x := setReg emBase.x 1 0x2001 }

/-- state whose exit code is already set -/
def emExit : Emulator := { emBase with exitCode := some 7 }

/-- a freshly profiling profiler (running, empty branch cache) -/
def pRunning : Profiler := { Profiler.new with running := true }

/-- profiler after two taken branches at the same pc -/
def pTwiceTaken : Profiler := (pRunning.branchTaken 0x1000).branchTaken 0x1000

/-- profiler after a taken branch then a not-taken branch at the same pc -/
def pTakenThenNot : Profiler := (pRunning.branchTaken 0x1000).branchNotTaken 0x1000

/-- memory whose program buffer holds the bytes 72, 0, 105 (a NUL inside a write buffer) -/
def memWriteNul : Memory := { memNull with buffers := fun i => if i = 0 then [72, 0, 105] else [] }

/-- write(1, 0, 3) request over memWriteNul -/
def emWriteNul : Emulator :=
  { emBase with memory := memWriteNul, x := setReg (setReg (setReg emBase.x 10 1) 11 0) 12 3 }

/--
memory whose program buffer holds the ASCII bytes of Hi at address 0 and one
iovec record (pointer 0, length 2) at address 16
-/
def memHi : Memory :=
  { memNull with buffers := fun i =>
      if i = 0 then
        [72, 105, 0, 0, 0, 0, 0, 0, 0, 0, 0, 0, 0, 0, 0, 0,
         0, 0, 0, 0, 0, 0, 0, 0, 2, 0, 0, 0, 0, 0, 0, 0]
      else [] }

/-- write(1, 0, 2) request over memHi -/
def emWriteHi : Emulator :=
  { emBase with memory := memHi, x := setReg (setReg (setReg emBase.x 10 1) 11 0) 12 2 }

/-- writev(1, 16, 1) request over memHi -/
def emWritevHi : Emulator :=
  { emBase with memory := memHi, x := setReg (setReg (setReg emBase.x 10 1) 11 16) 12 1 }

/--
a mapped byte run: each of the len bytes at the buffer address loads
successfully, with arbitrary byte values.  Mirrors the address progression of
the read loop of read_string_n.
-/
def BytesRead (m : Memory) : Nat → Nat → List Nat → Prop
  | _, 0, [] => True
  | ptr, l + 1, b :: t =>
    m.load ptr 1 = Except.ok b ∧ BytesRead m ((ptr + 1) % 2 ^ 64) l t
  | _, _, _ => False

/--
an iovec table readable from memory starting at entry i: each entry loads a
pointer and a length, and the pointed-to len bytes are mapped.
-/
def WritevBufs (m : Memory) (iovecs : Nat) : Nat → List (Nat × Nat × List Nat) → Prop
  | _, [] => True
  | i, (ptr, len, bs) :: rest =>
    m.load ((iovecs + i * 16) % 2 ^ 64) 8 = Except.ok ptr ∧
    m.load ((iovecs + 8 + i * 16) % 2 ^ 64) 8 = Except.ok len ∧
    BytesRead m ptr len bs ∧
    WritevBufs m iovecs (i + 1) rest

/-- memory whose heap region has already grown: buffer 1 holds 8 bytes -/
def memHeap8 : Memory := { memNull with buffers := fun i => if i = 1 then List.replicate 8 0 else [] }

/-- the memory Memory::brk produces when it grows heap buffer 1 for request x -/
def brkGrown (m : Memory) (x : Nat) : Memory :=
  { m with buffers := bufUpdate m.buffers 1 (listResize (m.buffers 1) (x % 2 ^ 56)) }

/-- memory whose stack buffer has already grown to two pages -/
def memStack2p : Memory :=
  { memNull with buffers := fun i => if i = 255 then List.replicate 0x2000 0 else [] }

/-- one byte below the bottom of the two-page stack of memStack2p -/
def stackAddr2p : Nat := 2 ^ 64 - 1 - 0x2000 - 1

/-- the longest prefix of a byte run that precedes its first NUL byte -/
def takeUntilNul : List Nat → List Nat
  | [] => []
  | b :: t => if b = 0 then [] else b :: takeUntilNul t

/--
concatenation of the lossily decoded NUL-truncated byte runs of an iovec
description list: what the writev loop appends to stdout.
-/
def lossyCat : List (Nat × Nat × List Nat) → List Nat
  | [] => []
  | t :: rest => utf8Lossy (takeUntilNul t.2.2) ++ lossyCat rest

/-- the memory Memory::store produces on the stack-growth path: buffer doubled, bytes written -/
def stackGrown (m : Memory) (addr size val : Nat) : Memory :=
  { m with buffers := bufUpdate m.buffers 255 (writeBytesAt (m.buffers 255 ++ m.buffers 255) (addr - (STACK_START - (m.buffers 255 ++ m.buffers 255).length)) (leBytes size val)) }

/--
Claim C1: executing a division instruction whose divisor register holds zero
crashes the emulator rather than writing the all-ones quotient: the Div,
Divu, Divw and Divuw arms evaluate a Rust integer division, which panics on a
zero divisor (the source marks this with a TODO).  The remainder family is
guarded and does write the dividend: from x1 = 5 and x2 = 0, Remu, Remw and
Remuw all write 5 to x3.
-/
theorem divByZeroPanicsRemWritesDividend :
    Emulator.execute trivialFp emDiv (Inst.Div 3 1 2) 4 = none ∧
    Emulator.execute trivialFp emDiv (Inst.Divu 3 1 2) 4 = none ∧
    Emulator.execute trivialFp emDiv (Inst.Divw 3 1 2) 4 = none ∧
    Emulator.execute trivialFp emDiv (Inst.Divuw 3 1 2) 4 = none ∧
    (okState (Emulator.execute trivialFp emDiv (Inst.Remu 3 1 2) 4) emDiv).x 3 = 5 ∧
    (okState (Emulator.execute trivialFp emDiv (Inst.Remw 3 1 2) 4) emDiv).x 3 = 5 ∧
    (okState (Emulator.execute trivialFp emDiv (Inst.Remuw 3 1 2) 4) emDiv).x 3 = 5 :=
  ⟨rfl, rfl, rfl, rfl, rfl, rfl, rfl⟩

/--
Claim C2: Inst::decode is not total: the 16-bit words 0x8001 (C.SRLI with a
zero shift amount) and 0x8401 (C.SRAI with a zero shift amount) reach the
assert_ne before the Error fallback and panic, modelled as none.
-/
theorem decodePanicsOnZeroShiftCompressed :
    Inst.decode 0x8001 = none ∧ Inst.decode 0x8401 = none :=
  ⟨rfl, rfl⟩

/--
Claim C3: the JALR word 0x004081E7 encodes jalr x3, x1, 4, yet the decoder
shifts the immediate by 12 instead of 20 and yields offset 1024; executing it
at pc 0x100 with x1 = 0x2001 lands at 0x2401 with no clearing of bit 0,
whereas the claim requires (0x2001 + 4) with bit 0 cleared, namely 0x2004.
With rd = rs1 the target base is the freshly written link value: jalr x1, x1, 0
from the same state sets pc to 0x104, not the claimed 0x2000.
-/
theorem jalrDecodeAndExecuteDiverge :
    Inst.decode 0x004081E7 = some (Inst.Jalr 3 1 1024, 4) ∧
    (okState (Emulator.execute trivialFp emJalr (Inst.Jalr 3 1 1024) 4) emJalr).pc = 0x2401 ∧
    (okState (Emulator.execute trivialFp emJalr (Inst.Jalr 3 1 1024) 4) emJalr).x 3 = 0x104 ∧
    (okState (Emulator.execute trivialFp emJalr (Inst.Jalr 1 1 0) 4) emJalr).pc = 0x104 ∧
    (0x2401 : Nat) ≠ 0x2004 ∧ (0x104 : Nat) ≠ 0x2000 :=
  ⟨rfl, rfl, rfl, rfl, by decide, by decide⟩

/--
Claim C7: with the profiler running, a conditional branch at pc 0x1000 taken
twice counts the second (correctly predicted) execution as a misprediction
with a four-cycle penalty: after the two taken branches the mispredict
counter is 2, the predict counter 0 and the cycle counter 8.  Conversely a
taken branch followed by a not-taken branch at the same pc (a disagreement
with the stored outcome) is counted as predicted: predict 1, mispredict 1,
cycles 4.  Cache::update returns None on agreement and the new value on
disagreement, inverting the accounting the claim describes.
-/
theorem branchPredictorCountsInverted :
    pTwiceTaken.mispredictedBranchCount = 2 ∧
    pTwiceTaken.predictedBranchCount = 0 ∧
    pTwiceTaken.cycleCount = 8 ∧
    pTakenThenNot.predictedBranchCount = 1 ∧
    pTakenThenNot.mispredictedBranchCount = 1 ∧
    pTakenThenNot.cycleCount = 4 :=
  ⟨rfl, rfl, rfl, rfl, rfl, rfl⟩

/--
Claim C8: for every floating-point interpretation, state, instruction and
length, a step of Emulator::execute that returns Ok leaves register x0 equal
to zero: the commit tail re-zeroes x0 after every arm, including the Ecall
arm whose syscalls only ever write a0.
-/
theorem x0ZeroAfterExecute (fp : FpSem) (em : Emulator) (inst : Inst) (incr : Nat)
    (em2 : Emulator) (h : Emulator.execute fp em inst incr = some (Except.ok em2)) :
    em2.x 0 = 0 := by
  unfold Emulator.execute EmuRes.mapOk EmuRes.bind at h
  cases hM : Emulator.executeMatch fp em inst incr with
  | none => rw [hM] at h; exact Option.noConfusion h
  | some r =>
    cases r with
    | error e => rw [hM] at h; exact Except.noConfusion (Option.some.inj h)
    | ok em1 =>
      rw [hM] at h
      have h2 := Except.ok.inj (Option.some.inj h)
      rw [← h2]
      simp [Emulator.commitTail, setReg]

/-- Claim C8 witness: one concrete addi step ends with x0 = 0. -/
theorem x0ZeroAfterExecuteWitness :
    (okState (Emulator.execute trivialFp emBase (Inst.Addi 5 0 1) 4) emBase).x 0 = 0 :=
  x0ZeroAfterExecute trivialFp emBase (Inst.Addi 5 0 1) 4
    (okState (Emulator.execute trivialFp emBase (Inst.Addi 5 0 1) 4) emBase) rfl

/--
Claim C9: stepping is deterministic over the emulator value: the step
function of the embedding is a pure function of the state, so two emulators
that are equal as values (such as a clone and its original) produce equal
results under any number of fetch_and_execute steps.
-/
theorem stepNDeterministic (fp : FpSem) (n : Nat) (s t : Emulator) (h : s = t) :
    Emulator.stepN fp n s = Emulator.stepN fp n t := by rw [h]

/-- Claim C9 witness: a copied concrete state steps to the same result. -/
theorem stepNDeterministicWitness :
    Emulator.stepN trivialFp 2 emExit = Emulator.stepN trivialFp 2 emExit :=
  stepNDeterministic trivialFp 2 emExit emExit rfl

/--
Claim C10: once the exit code is set the state is absorbing: fetch_and_execute
returns Ok(Some(code)) immediately and returns the emulator unchanged in
every component.
-/
theorem exitCodeAbsorbing (fp : FpSem) (em : Emulator) (c : Nat) (h : em.exitCode = some c) :
    Emulator.fetchAndExecute fp em = some (Except.ok (em, some c)) := by
  unfold Emulator.fetchAndExecute
  rw [h]
  rfl

/-- Claim C10 witness: a state with exit code 7 is returned unchanged. -/
theorem exitCodeAbsorbingWitness :
    Emulator.fetchAndExecute trivialFp emExit = some (Except.ok (emExit, some 7)) :=
  exitCodeAbsorbing trivialFp emExit 7 rfl

/-- Vec::resize always leaves the buffer at exactly the requested length. -/
theorem listResize_length (l : List Nat) (n : Nat) : (listResize l n).length = n := by
  simp only [listResize]
  split
  · simp only [List.length_take]
    omega
  · simp only [List.length_append, List.length_replicate]
    omega

/--
Claim C5 counterexample: from a fresh memory (current break 2 ^ 56), the
request x = 2 ^ 56 + 1 is at or above the break, yet brk(x) followed by
brk(0) returns exactly x and not x rounded up to a page boundary.
-/
theorem brkNoPageRoundingCounterexample :
    0x0100000000000000 + (memNull.buffers 1).length ≤ 0x0100000000000001 ∧
    ((Memory.brk memNull 0x0100000000000001).bind
      (fun p => (Memory.brk p.1 0).map Prod.snd)) = some 0x0100000000000001 ∧
    (0x0100000000000001 : Nat) ≠ 0x0100000000001000 :=
  ⟨by decide, rfl, by decide⟩

/--
Claim C5 as amended: brk(0) returns the current break; for a request x at or
above the current break with top byte 1, brk(x) grows heap buffer 1 to end
exactly at x (no page rounding, no shrinking) and a subsequent brk(0)
returns exactly x.
-/
theorem brkExactNoShrink (m : Memory) (x : Nat)
    (hx : x >>> 56 = 1)
    (hge : 0x0100000000000000 + (m.buffers 1).length ≤ x) :
    Memory.brk m 0 = some (m, 0x0100000000000000 + (m.buffers 1).length) ∧
    Memory.brk m x = some (brkGrown m x, x) ∧
    Memory.brk (brkGrown m x) 0 = some (brkGrown m x, x) ∧
    (m.buffers 1).length ≤ ((brkGrown m x).buffers 1).length := by
  have hdiv : x / 2 ^ 56 = 1 := by
    rw [← Nat.shiftRight_eq_div_pow]; exact hx
  have hlen : ((brkGrown m x).buffers 1).length = x % 2 ^ 56 := by
    simp [brkGrown, bufUpdate, listResize_length]
  refine ⟨rfl, ?_, ?_, ?_⟩
  · simp [Memory.brk, Memory.growHeap, Memory.heapIndex, hx, brkGrown, bufUpdate, listResize_length]
    omega
  · simp [Memory.brk, brkGrown, bufUpdate, listResize_length]
    omega
  · rw [hlen]
    omega

/-- heap buffer 1 of memHeap8 holds eight bytes -/
theorem memHeap8_len : (memHeap8.buffers 1).length = 8 := by
  rw [show memHeap8.buffers 1 = List.replicate 8 0 from rfl, List.length_replicate]

/-- Claim C5 witness: the amended statement at the concrete request 2 ^ 56 + 16. -/
theorem brkExactNoShrinkWitness :
    Memory.brk memHeap8 0 = some (memHeap8, 0x0100000000000000 + (memHeap8.buffers 1).length) ∧
    Memory.brk memHeap8 0x0100000000000010 =
      some (brkGrown memHeap8 0x0100000000000010, 0x0100000000000010) ∧
    Memory.brk (brkGrown memHeap8 0x0100000000000010) 0 =
      some (brkGrown memHeap8 0x0100000000000010, 0x0100000000000010) ∧
    (memHeap8.buffers 1).length ≤ ((brkGrown memHeap8 0x0100000000000010).buffers 1).length :=
  brkExactNoShrink memHeap8 0x0100000000000010 (by decide)
    (by rw [memHeap8_len]; decide)

/-- writing bytes into a buffer never changes its length -/
theorem writeBytesAt_length (bs : List Nat) :
    ∀ (buf : List Nat) (off : Nat), (writeBytesAt buf off bs).length = buf.length := by
  induction bs with
  | nil => intro buf off; rfl
  | cons b t ih => intro buf off; simp [writeBytesAt, ih, List.length_set]

/-- one unfolding step of the stack growth loop -/
theorem growStackLoop_succ (fuel : Nat) (buf : List Nat) (addr : Nat) :
    growStackLoop (fuel + 1) buf addr =
      (if STACK_START - buf.length > addr then
        (if STACK_START - buf.length - addr > 0x1000 then
          some (Except.error RVError.SegmentationFault)
        else growStackLoop fuel (buf ++ buf) addr)
      else some (Except.ok buf)) := rfl

/--
when the store address is within one page below the stack bottom and the
buffer holds at least a page, the growth loop doubles the buffer exactly once
-/
theorem growStackOnce (buf : List Nat) (addr : Nat)
    (h1 : 0x1000 ≤ buf.length)
    (h2 : addr < STACK_START - buf.length)
    (h3 : STACK_START - buf.length - addr ≤ 0x1000) :
    growStackLoop 128 buf addr = some (Except.ok (buf ++ buf)) := by
  rw [show (128 : Nat) = 127 + 1 from rfl, growStackLoop_succ]
  rw [if_pos h2, if_neg (by omega)]
  rw [show (127 : Nat) = 126 + 1 from rfl, growStackLoop_succ]
  rw [if_neg (by simp only [List.length_append]; omega)]

/-- stack-branch store success shape: one doubling then the byte write -/
theorem stackStoreGrow (m : Memory) (addr size val : Nat)
    (hidx : Memory.heapIndex addr = 255)
    (h1 : 0x1000 ≤ (m.buffers 255).length)
    (h2 : addr < STACK_START - (m.buffers 255).length)
    (h3 : STACK_START - (m.buffers 255).length - addr ≤ 0x1000) :
    Memory.store m addr size val = some (Except.ok (stackGrown m addr size val)) := by
  simp only [Memory.store, hidx, if_pos]
  rw [growStackOnce (m.buffers 255) addr h1 h2 h3]
  simp [EmuRes.bind, stackGrown]

/-- stack-branch store failure shape: more than a page below the bottom -/
theorem stackStoreFault (m : Memory) (addr size val : Nat)
    (hidx : Memory.heapIndex addr = 255)
    (hgap : 0x1000 < STACK_START - (m.buffers 255).length - addr) :
    Memory.store m addr size val = some (Except.error RVError.SegmentationFault) := by
  simp only [Memory.store, hidx, if_pos]
  rw [show (128 : Nat) = 127 + 1 from rfl, growStackLoop_succ]
  rw [if_pos (by omega), if_pos (by omega)]
  rfl

/-- the stack buffer of memStack2p holds two pages -/
theorem memStack2p_len : (memStack2p.buffers 255).length = 0x2000 := by
  rw [show memStack2p.buffers 255 = List.replicate 0x2000 0 from rfl, List.length_replicate]

/-- the stack-growth result doubles the stack buffer length -/
theorem stackGrown_len255 (m : Memory) (addr size val : Nat) :
    ((stackGrown m addr size val).buffers 255).length =
      (m.buffers 255).length + (m.buffers 255).length := by
  simp [stackGrown, bufUpdate, writeBytesAt_length, List.length_append]

/--
Claim C6 as amended: for a store in the stack region with the stack buffer at
least one page large, an address at most one page below the current bottom
succeeds and doubles the buffer (extending the stack by exactly its current
size), while an address more than one page below fails with Segfault without
extending the stack.
-/
theorem stackStoreDoublesWithinGuard (m : Memory) (addr size val : Nat)
    (hidx : Memory.heapIndex addr = 255)
    (h1 : 0x1000 ≤ (m.buffers 255).length) :
    (addr < STACK_START - (m.buffers 255).length →
      STACK_START - (m.buffers 255).length - addr ≤ 0x1000 →
      Memory.store m addr size val = some (Except.ok (stackGrown m addr size val)) ∧
      ((stackGrown m addr size val).buffers 255).length = 2 * (m.buffers 255).length) ∧
    (0x1000 < STACK_START - (m.buffers 255).length - addr →
      Memory.store m addr size val = some (Except.error RVError.SegmentationFault)) := by
  constructor
  · intro h2 h3
    refine ⟨stackStoreGrow m addr size val hidx h1 h2 h3, ?_⟩
    rw [stackGrown_len255]
    omega
  · intro hgap
    exact stackStoreFault m addr size val hidx hgap

/--
Claim C6 witness: the amended statement at a concrete two-page stack and the
address one byte below its bottom.
-/
theorem stackStoreDoublesWithinGuardWitness :
    (stackAddr2p < STACK_START - (memStack2p.buffers 255).length →
      STACK_START - (memStack2p.buffers 255).length - stackAddr2p ≤ 0x1000 →
      Memory.store memStack2p stackAddr2p 1 0xAB =
        some (Except.ok (stackGrown memStack2p stackAddr2p 1 0xAB)) ∧
      ((stackGrown memStack2p stackAddr2p 1 0xAB).buffers 255).length =
        2 * (memStack2p.buffers 255).length) ∧
    (0x1000 < STACK_START - (memStack2p.buffers 255).length - stackAddr2p →
      Memory.store memStack2p stackAddr2p 1 0xAB =
        some (Except.error RVError.SegmentationFault)) :=
  stackStoreDoublesWithinGuard memStack2p stackAddr2p 1 0xAB (by decide)
    (by rw [memStack2p_len]; decide)

/--
Claim C6 counterexample: on the reachable two-page stack, a store one byte
below the bottom succeeds but extends the stack by two pages (to 0x4000
bytes), not by exactly one page (0x3000 bytes).
-/
theorem stackStoreNotOnePageCounterexample :
    Memory.store memStack2p stackAddr2p 1 0xAB =
      some (Except.ok (stackGrown memStack2p stackAddr2p 1 0xAB)) ∧
    ((stackGrown memStack2p stackAddr2p 1 0xAB).buffers 255).length = 0x4000 ∧
    (0x4000 : Nat) ≠ 0x2000 + 0x1000 := by
  refine ⟨?_, ?_, by decide⟩
  · exact stackStoreGrow memStack2p stackAddr2p 1 0xAB (by decide)
      (by rw [memStack2p_len]; decide)
      (by rw [memStack2p_len]; decide)
      (by rw [memStack2p_len]; decide)
  · rw [stackGrown_len255, memStack2p_len]

/--
a mapped byte run makes the byte-collection loop return exactly the bytes
that precede the first NUL
-/
theorem bytesRead_loop (m : Memory) :
    ∀ (len ptr : Nat) (bs : List Nat), BytesRead m ptr len bs →
      Memory.readStrLoop m len ptr = Except.ok (takeUntilNul bs) := by
  intro len
  induction len with
  | zero =>
    intro ptr bs h
    cases bs with
    | nil => rfl
    | cons b t => exact (h : False).elim
  | succ l ih =>
    intro ptr bs h
    cases bs with
    | nil => exact (h : False).elim
    | cons b t =>
      obtain ⟨hload, hrest⟩ :=
        (h : m.load ptr 1 = Except.ok b ∧ BytesRead m ((ptr + 1) % 2 ^ 64) l t)
      simp only [Memory.readStrLoop, hload]
      by_cases hb : b = 0
      · rw [if_pos hb]
        show Except.ok [] = Except.ok (takeUntilNul (b :: t))
        rw [show takeUntilNul (b :: t) = if b = 0 then [] else b :: takeUntilNul t from rfl,
          if_pos hb]
      · rw [if_neg hb, ih ((ptr + 1) % 2 ^ 64) t hrest]
        show Except.ok (b :: takeUntilNul t) = Except.ok (takeUntilNul (b :: t))
        rw [show takeUntilNul (b :: t) = if b = 0 then [] else b :: takeUntilNul t from rfl,
          if_neg hb]

/-- lossy UTF-8 decoding is the identity on ASCII byte runs -/
theorem utf8Lossy_ascii : ∀ (bs : List Nat), (∀ b ∈ bs, b < 0x80) → utf8Lossy bs = bs := by
  intro bs
  induction bs with
  | nil => intro; rfl
  | cons b t ih =>
    intro h
    have hb : b < 0x80 := h b (List.mem_cons_self b t)
    have step : utf8Lossy (b :: t) = b :: utf8Lossy t := by
      conv_lhs => unfold utf8Lossy
      rw [if_pos hb]
    rw [step, ih (fun c hc => h c (List.mem_cons_of_mem b hc))]

/-- the NUL-truncating prefix is the identity on NUL-free byte runs -/
theorem takeUntilNul_of_nulFree :
    ∀ (bs : List Nat), (∀ b ∈ bs, b ≠ 0) → takeUntilNul bs = bs := by
  intro bs
  induction bs with
  | nil => intro; rfl
  | cons b t ih =>
    intro h
    have hb : b ≠ 0 := h b (List.mem_cons_self b t)
    show (if b = 0 then [] else b :: takeUntilNul t) = b :: t
    rw [if_neg hb, ih (fun c hc => h c (List.mem_cons_of_mem b hc))]

/--
read_string_n on a mapped byte run returns the lossy decoding of the bytes
before the first NUL
-/
theorem readStringN_lossy (m : Memory) (ptr len : Nat) (bs : List Nat)
    (h : BytesRead m ptr len bs) :
    Memory.readStringN m ptr len = Except.ok (utf8Lossy (takeUntilNul bs)) := by
  unfold Memory.readStringN
  rw [bytesRead_loop m len ptr bs h]
  rfl

/-- Syscall number 64 is write -/
theorem fromNat_64 : Syscall.fromNat 64 = some Syscall.Write := rfl

/-- Syscall number 66 is writev -/
theorem fromNat_66 : Syscall.fromNat 66 = some Syscall.Writev := rfl

/--
the writev iovec walk appends the concatenation of the lossily decoded
NUL-truncated runs
-/
theorem writevLoop_lossy (m : Memory) (iovecs : Nat) :
    ∀ (ivs : List (Nat × Nat × List Nat)) (i : Nat) (acc : List Nat),
      WritevBufs m iovecs i ivs →
      writevLoop m iovecs i ivs.length acc = some (Except.ok (acc ++ lossyCat ivs)) := by
  intro ivs
  induction ivs with
  | nil =>
    intro i acc h
    simp [writevLoop, lossyCat]
  | cons hd rest ih =>
    intro i acc h
    obtain ⟨ptr, len, bs⟩ := hd
    obtain ⟨hp, hl, har, hrest⟩ :=
      (h : m.load ((iovecs + i * 16) % 2 ^ 64) 8 = Except.ok ptr ∧
        m.load ((iovecs + 8 + i * 16) % 2 ^ 64) 8 = Except.ok len ∧
        BytesRead m ptr len bs ∧ WritevBufs m iovecs (i + 1) rest)
    show writevLoop m iovecs i (rest.length + 1) acc = _
    simp only [writevLoop, hp, hl]
    rw [readStringN_lossy m ptr len bs har]
    show writevLoop m iovecs (i + 1) rest.length (acc ++ utf8Lossy (takeUntilNul bs)) = _
    rw [ih (i + 1) (acc ++ utf8Lossy (takeUntilNul bs)) hrest]
    simp only [lossyCat, List.append_assoc]

/--
Claim C4 as amended: for write with fd in 1 or 2 whose len buffer bytes are
mapped, the syscall appends to stdout the lossy UTF-8 decoding of the buffer
bytes that precede the first NUL (at most len bytes) and writes len to a0;
when those bytes are NUL-free ASCII the appended run is exactly the buffer
bytes, byte-for-byte.  writev over mapped iovec buffers appends each buffer
the same way but writes no return value to a0.
-/
theorem writeWritevLossyAppend (em1 em2 : Emulator) (bs : List Nat)
    (ivs : List (Nat × Nat × List Nat))
    (h1fd : em1.x A0 = 1 ∨ em1.x A0 = 2)
    (h1 : BytesRead em1.memory (em1.x 11) (em1.x 12) bs)
    (h2fd : em2.x A0 = 1 ∨ em2.x A0 = 2)
    (h2 : WritevBufs em2.memory (em2.x 11) 0 ivs)
    (h2cnt : em2.x 12 = ivs.length) :
    Emulator.syscall em1 64 =
      some (Except.ok { em1 with stdout := em1.stdout ++ utf8Lossy (takeUntilNul bs)
                                 x := setReg em1.x A0 (em1.x 12) }) ∧
    ((∀ b ∈ bs, 0 < b ∧ b < 0x80) → utf8Lossy (takeUntilNul bs) = bs) ∧
    Emulator.syscall em2 66 =
      some (Except.ok { em2 with stdout := em2.stdout ++ lossyCat ivs }) := by
  refine ⟨?_, ?_, ?_⟩
  · have hfd : em1.x A0 ≤ 2 := by rcases h1fd with h | h <;> omega
    simp only [Emulator.syscall, fromNat_64]
    rw [if_pos hfd]
    rw [readStringN_lossy em1.memory (em1.x 11) (em1.x 12) bs h1]
  · intro hascii
    rw [takeUntilNul_of_nulFree bs (fun b hb => Nat.pos_iff_ne_zero.mp (hascii b hb).1)]
    exact utf8Lossy_ascii bs (fun b hb => (hascii b hb).2)
  · have hfd : em2.x A0 ≤ 2 := by rcases h2fd with h | h <;> omega
    simp only [Emulator.syscall, fromNat_66]
    rw [if_pos hfd]
    rw [h2cnt, writevLoop_lossy em2.memory (em2.x 11) ivs 0 [] h2]
    simp [EmuRes.mapOk, EmuRes.bind]

/--
Claim C4 witness: write(1, 0, 2) over a buffer holding the ASCII bytes of Hi
appends the lossy decoding of its NUL-free prefix (those two bytes) and
returns 2; writev(1, 16, 1) over the iovec pointing at the same bytes appends
them and leaves a0 alone.
-/
theorem writeWritevLossyAppendWitness :
    Emulator.syscall emWriteHi 64 =
      some (Except.ok { emWriteHi with stdout := emWriteHi.stdout ++ utf8Lossy (takeUntilNul [72, 105])
                                       x := setReg emWriteHi.x A0 (emWriteHi.x 12) }) ∧
    Emulator.syscall emWritevHi 66 =
      some (Except.ok { emWritevHi with stdout := emWritevHi.stdout ++ lossyCat [(0, 2, [72, 105])] }) :=
  ⟨(writeWritevLossyAppend emWriteHi emWritevHi [72, 105] [(0, 2, [72, 105])]
      (Or.inl rfl) ⟨rfl, rfl, trivial⟩ (Or.inl rfl)
      ⟨rfl, rfl, ⟨rfl, rfl, trivial⟩, trivial⟩ rfl).1,
   (writeWritevLossyAppend emWriteHi emWritevHi [72, 105] [(0, 2, [72, 105])]
      (Or.inl rfl) ⟨rfl, rfl, trivial⟩ (Or.inl rfl)
      ⟨rfl, rfl, ⟨rfl, rfl, trivial⟩, trivial⟩ rfl).2.2⟩

/--
Claim C4 counterexample: write(1, 0, 3) over the buffer bytes 72, 0, 105
appends only the single byte before the NUL to stdout (while still returning
3 in a0), so the appended bytes are not the three requested bytes.
-/
theorem writeStopsAtNulCounterexample :
    (okState (Emulator.syscall emWriteNul 64) emWriteNul).stdout = [72] ∧
    (okState (Emulator.syscall emWriteNul 64) emWriteNul).x 10 = 3 ∧
    ([72] : List Nat) ≠ [72, 0, 105] :=
  ⟨rfl, rfl, by decide⟩

end Remu
